import Mathlib

/-!
Verification development for the agent orchestration engine of this
repository (`src/workflow.js`, agent version of `ChatWorkflow`, together
with the tool registry of `src/functions.js`).

The JavaScript source is shallowly embedded:
* JavaScript runtime values flowing through the detector and the tool
  results are modelled by `JVal`; string/number/boolean truthiness follows
  ECMAScript for the value shapes the program actually produces.
* The regular expressions of the source are embedded as `Re` values and
  executed by a small backtracking matcher (`mEx`) with JavaScript
  semantics (ordered alternation, greedy/lazy quantifiers, leftmost match,
  `/i`-insensitivity by ASCII case folding, `/m` multiline anchors).
* Effectful collaborators (the model service `env.AI.run` and the tool
  executors reached through `executeFunction`) are oracles passed as
  function parameters, per the spec's external-interface boundary.
* Timestamps (`Date.now()`) and `console` logging are not modelled; no
  verified property concerns them.
-/

set_option maxRecDepth 10000

namespace CfAgent

/-! ## JavaScript value model -/

/-- A JavaScript runtime value, restricted to the shapes that flow through
the orchestration code: `undefined`, `null`, booleans, numbers (modelled
as rationals; every numeric literal the verified paths produce is a small
integer, where IEEE-754 doubles are exact), strings, arrays and plain
objects (association lists in insertion order, as JS object keys are). -/
inductive JVal where
  | undef
  | null
  | jbool (b : Bool)
  | num (q : Rat)
  | str (s : String)
  | arr (xs : List JVal)
  | obj (fs : List (String × JVal))

/-- ECMAScript ToBoolean on `JVal`: `undefined`, `null`, `false`, `0` and
the empty string are falsy; every object and array is truthy. -/
def truthy : JVal → Bool
  | .undef => false
  | .null => false
  | .jbool b => b
  | .num q => !(q == 0)
  | .str s => !(s == "")
  | .arr _ => true
  | .obj _ => true

/-- Lookup in an association list (`undefined` when the key is absent). -/
def jsGetL (fs : List (String × JVal)) (k : String) : JVal :=
  match fs.find? (fun f => f.fst == k) with
  | some f => f.snd
  | none => (.undef)

/-- Property access `v.k` (also modelling optional chaining `v?.k`, which
only differs on `undefined`/`null` receivers, where both give `undefined`
in the contexts the source uses it). Non-object receivers yield
`undefined`, as the source only reads ad-hoc properties from them. -/
def jsGet (v : JVal) (k : String) : JVal :=
  match v with
  | .obj fs => jsGetL fs k
  | _ => (.undef)

/-- Assignment into an association list: the first binding of the key is
updated in place (JS keeps the original insertion position; keys of a JS
object are unique), a missing key is appended. -/
def jsSetL : List (String × JVal) → String → JVal → List (String × JVal)
  | [], k, x => [(k, x)]
  | f :: fs, k, x =>
    if f.fst == k then (f.fst, x) :: fs else f :: jsSetL fs k x

/-- Property assignment `v.k = x` on an object. Assignment to a primitive
is a silent no-op in non-strict JS, which is how the source's
`toolContent.confidence = …` behaves when a tool oracle returns a
primitive. -/
def jsSet (v : JVal) (k : String) (x : JVal) : JVal :=
  match v with
  | .obj fs => .obj (jsSetL fs k x)
  | w => w

/-- JS `a || b` on values (first truthy operand, else the second). -/
def jsOr (a b : JVal) : JVal := if truthy a then a else b

/-! ## JavaScript string helpers -/

/-- Whether `pre` is a prefix of `l` (character-exact). -/
def chPre : List Char → List Char → Bool
  | [], _ => true
  | _ :: _, [] => false
  | a :: as, b :: bs => (a == b) && chPre as bs

/-- Whether `needle` occurs somewhere inside `hay` (character lists). -/
def chSub (needle : List Char) : List Char → Bool
  | [] => chPre needle []
  | c :: cs => chPre needle (c :: cs) || chSub needle cs

/-- `String.prototype.includes` (case-sensitive substring test). -/
def jsIncl (hay needle : String) : Bool :=
  chSub needle.data hay.data

/-- `String.prototype.toLowerCase`, ASCII range (the source only lowercases
ASCII English text). -/
def jsLower (s : String) : String := String.mk (s.data.map Char.toLower)

/-- The whitespace class used both for `\s` and for `trim`: space, tab,
line feed, carriage return, vertical tab, form feed.  (The full JS class
also holds exotic Unicode spaces; none occurs in this program's data.) -/
def isWhiteC (c : Char) : Bool :=
  c == ' ' || c == '\t' || c == '\n' || c == '\r' ||
  c == (Char.ofNat 11) || c == (Char.ofNat 12)

/-- `String.prototype.trim`. -/
def jsTrim (s : String) : String :=
  String.mk (((s.data.dropWhile isWhiteC).reverse.dropWhile isWhiteC).reverse)

/-! ## Regular expressions of the source, as data

`Re` is the abstract syntax of exactly the constructs the source's regex
literals use.  A character class is `tok neg items` (`neg` for `[^…]`;
`tok true []`, a negated empty class, is the source's `[\s\S]`). -/

/-- One member of a character class: a literal character, a range, or one
of the shorthand classes `\d`, `\w`, `\s`. -/
inductive CItem where
  | ch (c : Char)
  | rng (lo hi : Char)
  | digit
  | word
  | white

/-- Regular-expression abstract syntax. -/
inductive Re where
  | eps
  | tok (neg : Bool) (items : List CItem)
  | dot
  | cat (a b : Re)
  | alt (a b : Re)
  | star (lazy : Bool) (r : Re)
  | opt (lazy : Bool) (r : Re)
  | grp (idx : Nat) (r : Re)
  | bol
  | eol
  | wb

/-- `\w`: `[A-Za-z0-9_]`. -/
def isWordC (c : Char) : Bool :=
  ('a' ≤ c && c ≤ 'z') || ('A' ≤ c && c ≤ 'Z') || ('0' ≤ c && c ≤ '9') || c == '_'

/-- `\d`. -/
def isDigC (c : Char) : Bool := '0' ≤ c && c ≤ '9'

/-- Whether one class item covers `c` (before case folding). -/
def itemHas (it : CItem) (c : Char) : Bool :=
  match it with
  | .ch d => c == d
  | .rng lo hi => lo ≤ c && c ≤ hi
  | .digit => isDigC c
  | .word => isWordC c
  | .white => isWhiteC c

/-- Class membership before negation, with `/i` ASCII case folding: a
character matches case-insensitively when it, its lowercase or its
uppercase form is covered. -/
def clsHas (ci : Bool) (items : List CItem) (c : Char) : Bool :=
  items.any (fun it => itemHas it c) ||
  (ci && (items.any (fun it => itemHas it c.toLower) ||
          items.any (fun it => itemHas it c.toUpper)))

/-- Full class match including negation. -/
def tokMatch (ci neg : Bool) (items : List CItem) (c : Char) : Bool :=
  if neg then !(clsHas ci items c) else clsHas ci items c

/-- Character at a position of the subject. -/
def charAt (inp : List Char) (i : Nat) : Option Char := inp.get? i

/-- The substring of the subject between two positions. -/
def sliceS (inp : List Char) (a b : Nat) : String :=
  String.mk ((inp.drop a).take (b - a))

/-- Matcher configuration: `/i` flag, `/m` flag, the subject and its
length. -/
structure MCfg where
  ci : Bool
  ml : Bool
  inp : List Char
  len : Nat

/-- Backtracking matcher in continuation-passing style, implementing the
ECMAScript matching order: alternatives are tried left to right, greedy
quantifiers try the longer iteration first, lazy quantifiers the shorter,
and a quantifier iteration that consumes nothing ends the repetition.
`caps` collects `(group index, captured text)` pairs, most recent first.
The explicit `fuel` only bounds the nesting depth of the search (each
recursive call descends one level); every evaluation in this file supplies
fuel exceeding the maximal possible depth for its subject, so exhaustion
never occurs on the verified computations. -/
def mEx (cfg : MCfg) : Nat → Re → Nat → List (Nat × String) →
    (Nat → List (Nat × String) → Option (Nat × List (Nat × String))) →
    Option (Nat × List (Nat × String))
  | 0, _, _, _, _ => none
  | Nat.succ f, re, pos, caps, k =>
    match re with
    | .eps => k pos caps
    | .tok neg items =>
      match charAt cfg.inp pos with
      | some c => if tokMatch cfg.ci neg items c then k (pos + 1) caps else none
      | none => none
    | .dot =>
      match charAt cfg.inp pos with
      | some c => if c == '\n' || c == '\r' then none else k (pos + 1) caps
      | none => none
    | .cat a b => mEx cfg f a pos caps (fun p c2 => mEx cfg f b p c2 k)
    | .alt a b =>
      match mEx cfg f a pos caps k with
      | some r => some r
      | none => mEx cfg f b pos caps k
    | .star lz r =>
      if lz then
        match k pos caps with
        | some r2 => some r2
        | none =>
          mEx cfg f r pos caps (fun p c2 =>
            if p == pos then none else mEx cfg f (.star lz r) p c2 k)
      else
        match mEx cfg f r pos caps (fun p c2 =>
            if p == pos then none else mEx cfg f (.star lz r) p c2 k) with
        | some r2 => some r2
        | none => k pos caps
    | .opt lz r =>
      if lz then
        match k pos caps with
        | some r2 => some r2
        | none => mEx cfg f r pos caps k
      else
        match mEx cfg f r pos caps k with
        | some r2 => some r2
        | none => k pos caps
    | .grp i r =>
      mEx cfg f r pos caps (fun p c2 => k p ((i, sliceS cfg.inp pos p) :: c2))
    | .bol =>
      if pos == 0 ||
         (cfg.ml && (match charAt cfg.inp (pos - 1) with
                     | some c => c == '\n'
                     | none => false)) then k pos caps else none
    | .eol =>
      if pos == cfg.len ||
         (cfg.ml && (match charAt cfg.inp pos with
                     | some c => c == '\n'
                     | none => false)) then k pos caps else none
    | .wb =>
      let before :=
        match (if pos == 0 then none else charAt cfg.inp (pos - 1)) with
        | some c => isWordC c
        | none => false
      let here :=
        match charAt cfg.inp pos with
        | some c => isWordC c
        | none => false
      if before != here then k pos caps else none

/-- A successful match: its bounds in the subject and its captures. -/
structure RMatch where
  mstart : Nat
  mstop : Nat
  groups : List (Nat × String)

/-- Fuel that exceeds the maximal matcher depth for the source's patterns
on a given subject (pattern structural depth is below 700 for every
pattern in this file; star iterations each consume input). -/
def reFuel (len : Nat) : Nat := 3 * len + 700

/-- Attempt a match anchored at position `pos`. -/
def mAt (ci ml : Bool) (re : Re) (inp : List Char) (pos : Nat) : Option RMatch :=
  let cfg : MCfg := ⟨ci, ml, inp, inp.length⟩
  match mEx cfg (reFuel inp.length) re pos [] (fun p c => some (p, c)) with
  | some (stop, caps) => some ⟨pos, stop, caps⟩
  | none => none

/-- Leftmost match at or after `pos` (`RegExp.prototype.exec` from a given
index): positions are tried in increasing order. -/
def mFind (ci ml : Bool) (re : Re) (inp : List Char) : Nat → Nat → Option RMatch
  | 0, _ => none
  | Nat.succ f, pos =>
    if pos > inp.length then none
    else
      match mAt ci ml re inp pos with
      | some m => some m
      | none => mFind ci ml re inp f (pos + 1)

/-- `String.prototype.match` with a non-global regex, reduced to the match
object (matched text and groups): `none` when there is no match. -/
def reFirst (ci ml : Bool) (re : Re) (s : String) : Option RMatch :=
  mFind ci ml re s.data (s.data.length + 1) 0

/-- `RegExp.prototype.test`. -/
def reTest (ci ml : Bool) (re : Re) (s : String) : Bool :=
  (reFirst ci ml re s).isSome

/-- Captured group `i` of a match (`undefined`, i.e. `none`, when the group
did not participate). The most recent capture wins, as in backtracking
JS engines. -/
def grpGet (m : RMatch) (i : Nat) : Option String :=
  match m.groups.find? (fun g => g.fst == i) with
  | some g => some g.snd
  | none => none

/-- The matched text of a match (`match[0]`). -/
def mText (inp : List Char) (m : RMatch) : String := sliceS inp m.mstart m.mstop

/-- All matches of a `/g` regex (`String.prototype.match` with the global
flag): repeated leftmost search, resuming after each match, skipping one
character after an empty match as the ECMAScript loop does. -/
def reAllGo (ci ml : Bool) (re : Re) (inp : List Char) : Nat → Nat → List String
  | 0, _ => []
  | Nat.succ f, pos =>
    match mFind ci ml re inp (inp.length + 1) pos with
    | none => []
    | some m =>
      mText inp m ::
        (if m.mstop == m.mstart then reAllGo ci ml re inp f (m.mstop + 1)
         else reAllGo ci ml re inp f m.mstop)

/-- All matched substrings of a global regex. -/
def reAll (ci ml : Bool) (re : Re) (s : String) : List String :=
  reAllGo ci ml re s.data (s.data.length + 1) 0

/-- `String.prototype.replace` with a `/g` regex and a constant replacement
string: every match replaced, empty matches advancing one character. -/
def reReplGo (ci ml : Bool) (re : Re) (repl : String) (inp : List Char) :
    Nat → Nat → String
  | 0, _ => ""
  | Nat.succ f, pos =>
    match mFind ci ml re inp (inp.length + 1) pos with
    | none => sliceS inp pos inp.length
    | some m =>
      sliceS inp pos m.mstart ++ repl ++
        (if m.mstop == m.mstart then
          (match charAt inp m.mstop with
           | some c => String.mk [c]
           | none => "") ++ reReplGo ci ml re repl inp f (m.mstop + 1)
         else reReplGo ci ml re repl inp f m.mstop)

/-- Global replacement by a constant string. -/
def reRepl (ci ml : Bool) (re : Re) (repl : String) (s : String) : String :=
  reReplGo ci ml re repl s.data (s.data.length + 1) 0

/-! ### Pattern-building helpers (used to transcribe the source's regex
literals one construct at a time) -/

/-- A literal character. -/
def rch (c : Char) : Re := .tok false [.ch c]

/-- A literal string, as a sequence of literal characters. -/
def rstr (s : String) : Re := s.data.foldr (fun c r => .cat (rch c) r) .eps

/-- Sequencing of a list of patterns. -/
def rcat (l : List Re) : Re := l.foldr .cat .eps

/-- Ordered alternation of a list of patterns (JS `(?:a|b|…)`). -/
def ror : List Re → Re
  | [] => .eps
  | [x] => x
  | x :: xs => .alt x (ror xs)

/-- `[…]` over the given characters. -/
def oneOf (s : String) : Re := .tok false (s.data.map CItem.ch)

/-- `[^…]` over the given characters. -/
def noneOf (s : String) : Re := .tok true (s.data.map CItem.ch)

/-- `\w`, `\d`, `\s`, `\S`, `[\s\S]`, `[A-Z]`. -/
def wtok : Re := .tok false [.word]
def dtok : Re := .tok false [.digit]
def stok : Re := .tok false [.white]
def nstok : Re := .tok true [.white]
def anyc : Re := .tok true []
def azU : Re := .tok false [.rng 'A' 'Z']

/-- Greedy `+`. -/
def plus1 (r : Re) : Re := .cat r (.star false r)

/-- Lazy `+?`. -/
def lplus (r : Re) : Re := .cat r (.star true r)

/-- Greedy `*`. -/
def rstar (r : Re) : Re := .star false r

/-- Lazy `*?`. -/
def lstar (r : Re) : Re := .star true r

/-- Greedy `?`. -/
def ropt (r : Re) : Re := .opt false r

end CfAgent

namespace CfAgent

/-! ## JSON (the `JSON.parse` / `JSON.stringify` builtins)

`jsonParse` models `JSON.parse` on the grammar the detector can meet
(objects, arrays, strings with the standard escapes, decimal numbers,
`true`/`false`/`null`); a failure models the thrown `SyntaxError`.  The
ECMAScript error message text is summarized by a fixed string, as the
source only ever tests error messages for authentication keywords that a
`SyntaxError` message never contains. -/

/-- Message of the modelled `SyntaxError` thrown by `JSON.parse`. -/
def jsonErr : String := "SyntaxError: JSON.parse: unexpected token"

/-- JSON insignificant whitespace. -/
def jpWs (s : List Char) : List Char :=
  s.dropWhile (fun c => c == ' ' || c == '\t' || c == '\n' || c == '\r')

/-- Value of a hex digit. -/
def hexVal (c : Char) : Nat :=
  if '0' ≤ c && c ≤ '9' then c.toNat - '0'.toNat
  else if 'a' ≤ c && c ≤ 'f' then c.toNat - 'a'.toNat + 10
  else if 'A' ≤ c && c ≤ 'F' then c.toNat - 'A'.toNat + 10
  else 0

/-- Body of a JSON string after the opening quote: the decoded text and the
rest of the input after the closing quote (fuelled by the input length). -/
def jpStrGo : Nat → List Char → Option (String × List Char)
  | 0, _ => none
  | _, [] => none
  | Nat.succ f, c :: cs =>
    if c == '"' then some ("", cs)
    else if c == '\\' then
      match cs with
      | [] => none
      | e :: es =>
        let dec : Option (Char × List Char) :=
          if e == '"' then some ('"', es)
          else if e == '\\' then some ('\\', es)
          else if e == '/' then some ('/', es)
          else if e == 'b' then some (Char.ofNat 8, es)
          else if e == 'f' then some (Char.ofNat 12, es)
          else if e == 'n' then some ('\n', es)
          else if e == 'r' then some ('\r', es)
          else if e == 't' then some ('\t', es)
          else if e == 'u' then
            match es with
            | h1 :: h2 :: h3 :: h4 :: es2 =>
              some (Char.ofNat
                (((hexVal h1 * 16 + hexVal h2) * 16 + hexVal h3) * 16 + hexVal h4), es2)
            | _ => none
          else none
        match dec with
        | some (d, rest) =>
          match jpStrGo f rest with
          | some (t, rest2) => some (String.mk [d] ++ t, rest2)
          | none => none
        | none => none
    else
      match jpStrGo f cs with
      | some (t, rest) => some (String.mk [c] ++ t, rest)
      | none => none

/-- Body of a JSON string after the opening quote. -/
def jpStr (s : List Char) : Option (String × List Char) :=
  jpStrGo (s.length + 1) s

/-- Natural number denoted by a digit list. -/
def digsVal (l : List Char) : Nat :=
  l.foldl (fun a c => a * 10 + (c.toNat - '0'.toNat)) 0

/-- A JSON/JS decimal numeral starting the input: its value and the rest.
Handles sign, integer part, fraction and exponent.  (Hexadecimal and
`Infinity` forms of full JS `Number` never reach the verified paths.) -/
def jpNum (s : List Char) : Option (Rat × List Char) :=
  let (sgn, s1) : (Int × List Char) :=
    match s with
    | '-' :: t => (-1, t)
    | '+' :: t => (1, t)
    | _ => (1, s)
  let ip := s1.takeWhile isDigC
  let s2 := s1.dropWhile isDigC
  let (fp, s3) : (List Char × List Char) :=
    match s2 with
    | '.' :: t => (t.takeWhile isDigC, t.dropWhile isDigC)
    | _ => ([], s2)
  if ip.isEmpty && fp.isEmpty then none
  else
    let base : Rat := (sgn * Int.ofNat (digsVal (ip ++ fp)) : Int) /
      ((10 : Rat) ^ fp.length)
    match s3 with
    | e :: t =>
      if e == 'e' || e == 'E' then
        let (esgn, t1) : (Bool × List Char) :=
          match t with
          | '-' :: u => (true, u)
          | '+' :: u => (false, u)
          | _ => (false, t)
        let ed := t1.takeWhile isDigC
        if ed.isEmpty then none
        else
          let ex : Rat := (10 : Rat) ^ digsVal ed
          some ((if esgn then base / ex else base * ex), t1.dropWhile isDigC)
      else some (base, s3)
    | [] => some (base, s3)

mutual

/-- One JSON value starting the (whitespace-stripped) input; `none` is any
syntax error. -/
def jpVal : Nat → List Char → Option (JVal × List Char)
  | 0, _ => none
  | Nat.succ f, s =>
    match jpWs s with
    | [] => none
    | c :: cs =>
      if c == '"' then
        match jpStr cs with
        | some (t, rest) => some (.str t, rest)
        | none => none
      else if c == '{' then jpObj f (jpWs cs) []
      else if c == '[' then jpArr f (jpWs cs) []
      else if chPre ['t','r','u','e'] (c :: cs) then
        some (.jbool true, (c :: cs).drop 4)
      else if chPre ['f','a','l','s','e'] (c :: cs) then
        some (.jbool false, (c :: cs).drop 5)
      else if chPre ['n','u','l','l'] (c :: cs) then
        some (.null, (c :: cs).drop 4)
      else
        match jpNum (c :: cs) with
        | some (q, rest) => some (.num q, rest)
        | none => none

/-- Elements of a JSON array after `[`. -/
def jpArr : Nat → List Char → List JVal → Option (JVal × List Char)
  | 0, _, _ => none
  | Nat.succ f, s, acc =>
    match jpWs s with
    | ']' :: rest =>
      if acc.isEmpty then some (.arr [], rest) else none
    | s1 =>
      match jpVal f s1 with
      | some (v, rest) =>
        match jpWs rest with
        | ',' :: rest2 => jpArr f rest2 (acc ++ [v])
        | ']' :: rest2 => some (.arr (acc ++ [v]), rest2)
        | _ => none
      | none => none

/-- Members of a JSON object after `{`. -/
def jpObj : Nat → List Char → List (String × JVal) →
    Option (JVal × List Char)
  | 0, _, _ => none
  | Nat.succ f, s, acc =>
    match jpWs s with
    | '}' :: rest =>
      if acc.isEmpty then some (.obj [], rest) else none
    | '"' :: cs =>
      match jpStr cs with
      | some (k, rest) =>
        match jpWs rest with
        | ':' :: rest2 =>
          match jpVal f rest2 with
          | some (v, rest3) =>
            match jpWs rest3 with
            | ',' :: rest4 => jpObj f rest4 (acc ++ [(k, v)])
            | '}' :: rest4 => some (.obj (acc ++ [(k, v)]), rest4)
            | _ => none
          | none => none
        | _ => none
      | none => none
    | _ => none

end

/-- `JSON.parse` (a failure is the thrown `SyntaxError`). -/
def jsonParse (s : String) : Except String JVal :=
  match jpVal (s.length + 2) s.data with
  | some (v, rest) =>
    if (jpWs rest).isEmpty then .ok v else .error jsonErr
  | none => .error jsonErr

/-- Whether a value is `undefined` (used by `jstringify`, which drops such
object members). -/
def isUndefV : JVal → Bool
  | .undef => true
  | _ => false

/-- Whether a value is an array (`Array.isArray`). -/
def isArrV : JVal → Bool
  | .arr _ => true
  | _ => false

/-- Whether a value is a string (`typeof v === 'string'`). -/
def isStrV : JVal → Bool
  | .str _ => true
  | _ => false

/-- Escape one character for a JSON string literal. -/
def jEsc (c : Char) : String :=
  if c == '"' then String.mk ['\\', '"']
  else if c == '\\' then String.mk ['\\', '\\']
  else if c == '\n' then String.mk ['\\', 'n']
  else if c == '\r' then String.mk ['\\', 'r']
  else if c == '\t' then String.mk ['\\', 't']
  else String.mk [c]

/-- Render a JS number; the verified paths only serialize values whose
denominator divides a power of ten (every number produced by the program
is such). -/
def numRender (q : Rat) : String :=
  if q.den == 1 then toString q.num
  else toString q.num ++ "/" ++ toString q.den

mutual

/-- `JSON.stringify` (object members holding `undefined` are dropped, as
in JS). -/
def jstringify : JVal → String
  | .undef => "null"
  | .null => "null"
  | .jbool b => if b then "true" else "false"
  | .num q => numRender q
  | .str s => "\"" ++ String.join (s.data.map jEsc) ++ "\""
  | .arr xs => "[" ++ jstrL xs ++ "]"
  | .obj fs => "\x7b" ++ jstrO fs ++ "\x7d"

/-- Array elements, comma-separated. -/
def jstrL : List JVal → String
  | [] => ""
  | x :: xs =>
    let rest := jstrL xs
    if rest == "" then jstringify x else jstringify x ++ "," ++ rest

/-- Object members, comma-separated, skipping `undefined` members. -/
def jstrO : List (String × JVal) → String
  | [] => ""
  | (k, v) :: xs =>
    let rest := jstrO xs
    if isUndefV v then rest
    else
      let cur := "\"" ++ String.join (k.data.map jEsc) ++ "\":" ++ jstringify v
      if rest == "" then cur else cur ++ "," ++ rest

end

/-- `String.prototype.toUpperCase`, ASCII range. -/
def jsUpper (s : String) : String := String.mk (s.data.map Char.toUpper)

/-- ECMAScript `String(v)` for the values the source converts. -/
def jsToString : JVal → String
  | .undef => "undefined"
  | .null => "null"
  | .jbool b => if b then "true" else "false"
  | .num q => numRender q
  | .str s => s
  | .arr _ => ""
  | .obj _ => "[object Object]"

/-- `!isNaN(value)` together with `parseFloat(value)` for a string that is
entirely a decimal numeral (the only path on which the source converts:
it guards with `!isNaN(value)`, i.e. `Number(value)` succeeds on the whole
string, and then takes `parseFloat(value)`, which agrees with `Number` on
full decimal numerals). -/
def numParse (s : String) : Option Rat :=
  match jpNum (jsTrim s).data with
  | some (q, rest) => if rest.isEmpty then some q else none
  | none => none

end CfAgent

namespace CfAgent

/-! ## The tool registry (`src/functions.js`, `AVAILABLE_FUNCTIONS`)

Each entry keeps the name, description, declared parameter names and the
`required` list; the JSON-schema `type`/`enum`/`default` annotations are
never read by the orchestration code and are omitted. -/

/-- One tool definition of the registry. -/
structure FnDef where
  name : String
  description : String
  propNames : List String
  required : List String

/-- `AVAILABLE_FUNCTIONS`, in source order. -/
def AVAILABLE_FUNCTIONS : List FnDef := [
  ⟨"get_weather",
   "Get current weather information for a specific location. Use this when users ask about weather conditions.",
   ["location", "unit"], ["location"]⟩,
  ⟨"calculate",
   "Perform mathematical calculations. Use this when users ask to calculate, compute, or solve math problems.",
   ["expression"], ["expression"]⟩,
  ⟨"get_current_time",
   "Get the current date and time. Use this when users ask about the current time, date, or what day it is.",
   ["timezone"], []⟩,
  ⟨"search_web",
   "Search the web for information. Use this when users ask about current events, recent news, acquisitions, mergers, company deals, or any information that may require up-to-date data. Always use this for questions about recent business news, acquisitions, or 2025/2026 information.",
   ["query"], ["query"]⟩,
  ⟨"convert_currency",
   "Convert between different currencies. Use this when users ask about currency conversion or exchange rates.",
   ["amount", "from", "to"], ["amount", "from", "to"]⟩]

/-- `AVAILABLE_FUNCTIONS.map(f => f.function.name)`. -/
def functionNames : List String := AVAILABLE_FUNCTIONS.map (fun f => f.name)

/-- `AVAILABLE_FUNCTIONS.some(f => f.function.name === v)` for a `JVal`
candidate (strict equality: only strings can succeed). -/
def isRegisteredName (v : JVal) : Bool :=
  match v with
  | .str s => functionNames.contains s
  | _ => false

/-- `AVAILABLE_FUNCTIONS.find(f => …)?.function.parameters?.required || []`. -/
def requiredOf (fname : String) : List String :=
  match AVAILABLE_FUNCTIONS.find? (fun f => f.name == fname) with
  | some f => f.required
  | none => []

/-! ## Conversation and tool-call data -/

/-- A detected tool call (`{name, arguments}` as the detector builds them;
the name is a `JVal` because detection methods 1 and 2 copy whatever the
raw response held there). -/
structure ToolCall where
  name : JVal
  args : JVal

/-- A conversation message. `tool_calls` is carried by the assistant turn
the loop appends; `name` by `tool`-role messages. -/
structure Msg where
  role : String
  content : String
  name : Option JVal := none
  tool_calls : Option (List ToolCall) := none

/-- JS object association-list assignment `args[key] = v`. -/
def aset (l : List (String × JVal)) (k : String) (v : JVal) :
    List (String × JVal) :=
  jsSetL l k v

/-- JS object association-list read `args[key]` (`undefined` if absent). -/
def aget (l : List (String × JVal)) (k : String) : JVal :=
  match l.find? (fun f => f.fst == k) with
  | some f => f.snd
  | none => (.undef)

/-! ## The source's regex literals, transcribed

Each definition transcribes one regex literal of `src/workflow.js`
construct by construct; the `/i` and `/m` flags are supplied at the call
sites, matching each literal's flags. -/

/-- `/\{[\s\S]*?"(?:function|name|tool)"[\s\S]*?\}/g` (method 3). -/
def jsonPat1 : Re := rcat [rch '{', lstar anyc, rch '"',
  ror [rstr "function", rstr "name", rstr "tool"], rch '"', lstar anyc, rch '}']

/-- `/\{[\s\S]*?"function_name"[\s\S]*?\}/g` (method 3). -/
def jsonPat2 : Re := rcat [rch '{', lstar anyc, rch '"', rstr "function_name",
  rch '"', lstar anyc, rch '}']

/-- `/\{[\s\S]*?"tool_name"[\s\S]*?\}/g` (method 3). -/
def jsonPat3 : Re := rcat [rch '{', lstar anyc, rch '"', rstr "tool_name",
  rch '"', lstar anyc, rch '}']

/-- The method-3 pattern list, in source order. -/
def jsonPats : List Re := [jsonPat1, jsonPat2, jsonPat3]

/-- `/\[TOOL:\s*(\w+)\s*\(([^)]*)\)\]/i` (method 4). -/
def toolCallPat : Re := rcat [rch '[', rstr "TOOL:", rstar stok,
  .grp 1 (plus1 wtok), rstar stok, rch '(', .grp 2 (rstar (noneOf ")")),
  rch ')', rch ']']

/-- `/(\w+)\s*=\s*['"]([^'"]+)['"]|(\w+)\s*=\s*(\S+)/g`
(`parseFunctionArguments`, outer split). -/
def argPairG : Re := .alt
  (rcat [.grp 1 (plus1 wtok), rstar stok, rch '=', rstar stok, oneOf "'\"",
         .grp 2 (plus1 (noneOf "'\"")), oneOf "'\""])
  (rcat [.grp 3 (plus1 wtok), rstar stok, rch '=', rstar stok,
         .grp 4 (plus1 nstok)])

/-- `/(\w+)\s*=\s*(?:['"]([^'"]+)['"]|(\S+))/`
(`parseFunctionArguments`, per-part). -/
def argPairInner : Re := rcat [.grp 1 (plus1 wtok), rstar stok, rch '=',
  rstar stok,
  .alt (rcat [oneOf "'\"", .grp 2 (plus1 (noneOf "'\"")), oneOf "'\""])
       (.grp 3 (plus1 nstok))]

/-- `/(?:location|city|place|in|at|for)\s+(?:is\s+)?['"]?([A-Z][^'",.!?]+?)(?:['"]|,|\.|!|\?|$)/i`
(`extractArgumentsFromText`, `get_weather`). -/
def locPat1 : Re := rcat [
  ror [rstr "location", rstr "city", rstr "place", rstr "in", rstr "at",
       rstr "for"],
  plus1 stok, ropt (rcat [rstr "is", plus1 stok]), ropt (oneOf "'\""),
  .grp 1 (rcat [azU, lplus (noneOf "'\",.!?")]),
  ror [oneOf "'\"", rch ',', rch '.', rch '!', rch '?', .eol]]

/-- `/(?:weather\s+in|weather\s+for|weather\s+at)\s+['"]?([A-Z][^'",.!?]+?)(?:['"]|,|\.|!|\?|$)/i`. -/
def locPat2 : Re := rcat [
  ror [rcat [rstr "weather", plus1 stok, rstr "in"],
       rcat [rstr "weather", plus1 stok, rstr "for"],
       rcat [rstr "weather", plus1 stok, rstr "at"]],
  plus1 stok, ropt (oneOf "'\""),
  .grp 1 (rcat [azU, lplus (noneOf "'\",.!?")]),
  ror [oneOf "'\"", rch ',', rch '.', rch '!', rch '?', .eol]]

/-- `/['"]([A-Z][^'"]+?)['"]/` (no flags). -/
def locPat3 : Re := rcat [oneOf "'\"",
  .grp 1 (rcat [azU, lplus (noneOf "'\"")]), oneOf "'\""]

/-- `/\b(fahrenheit|f)\b/i`. -/
def fahPat : Re := rcat [.wb, .grp 1 (ror [rstr "fahrenheit", rstr "f"]), .wb]

/-- `/\b(celsius|c)\b/i`. -/
def celPat : Re := rcat [.wb, .grp 1 (ror [rstr "celsius", rstr "c"]), .wb]

/-- `/(?:calculate|compute|solve|evaluate|what is|what's)\s+(.+?)(?:\.|$|\?)/i`. -/
def calcPat1 : Re := rcat [
  ror [rstr "calculate", rstr "compute", rstr "solve", rstr "evaluate",
       rstr "what is", rstr "what's"],
  plus1 stok, .grp 1 (lplus .dot), ror [rch '.', .eol, rch '?']]

/-- `/(\d+\s*[+\-*\/]\s*\d+)/` — the source writes `[+\-*/]`. -/
def calcPat2 : Re := .grp 1 (rcat [plus1 dtok, rstar stok, oneOf "+-*/",
  rstar stok, plus1 dtok])

/-- `/(?:equals?|is)\s+(.+?)(?:\.|$|\?)/i`. -/
def calcPat3 : Re := rcat [
  ror [rcat [rstr "equal", ropt (rch 's')], rstr "is"],
  plus1 stok, .grp 1 (lplus .dot), ror [rch '.', .eol, rch '?']]

/-- `/(\d+(?:\.\d+)?)\s*(?:dollars?|euros?|pounds?|yen|yuan|usd|eur|gbp|jpy|cny)?/i`
(`convert_currency` amount). -/
def amountPat : Re := rcat [
  .grp 1 (rcat [plus1 dtok, ropt (rcat [rch '.', plus1 dtok])]),
  rstar stok,
  ropt (ror [rcat [rstr "dollar", ropt (rch 's')],
             rcat [rstr "euro", ropt (rch 's')],
             rcat [rstr "pound", ropt (rch 's')],
             rstr "yen", rstr "yuan", rstr "usd", rstr "eur", rstr "gbp",
             rstr "jpy", rstr "cny"])]

/-- `/(?:from|convert)\s+([A-Z]{3})/i`. -/
def fromPat : Re := rcat [ror [rstr "from", rstr "convert"], plus1 stok,
  .grp 1 (rcat [azU, azU, azU])]

/-- `/(?:to|into)\s+([A-Z]{3})/i`. -/
def toPat : Re := rcat [ror [rstr "to", rstr "into"], plus1 stok,
  .grp 1 (rcat [azU, azU, azU])]

/-- `/(?:timezone|time zone|in)\s+(?:is\s+)?['"]?([A-Z][^'",.!?]+?)(?:['"]|,|\.|!|\?|$)/i`. -/
def tzPat1 : Re := rcat [
  ror [rstr "timezone", rstr "time zone", rstr "in"],
  plus1 stok, ropt (rcat [rstr "is", plus1 stok]), ropt (oneOf "'\""),
  .grp 1 (rcat [azU, lplus (noneOf "'\",.!?")]),
  ror [oneOf "'\"", rch ',', rch '.', rch '!', rch '?', .eol]]

/-- `/(?:time\s+in|what time\s+in)\s+['"]?([A-Z][^'",.!?]+?)(?:['"]|,|\.|!|\?|$)/i`. -/
def tzPat2 : Re := rcat [
  ror [rcat [rstr "time", plus1 stok, rstr "in"],
       rcat [rstr "what time", plus1 stok, rstr "in"]],
  plus1 stok, ropt (oneOf "'\""),
  .grp 1 (rcat [azU, lplus (noneOf "'\",.!?")]),
  ror [oneOf "'\"", rch ',', rch '.', rch '!', rch '?', .eol]]

/-- `/(?:search|look up|find|search for|look for)\s+(?:for\s+)?['"]?([^'"]+?)['"]?(?:\.|$|\?)/i`. -/
def qPat1 : Re := rcat [
  ror [rstr "search", rstr "look up", rstr "find", rstr "search for",
       rstr "look for"],
  plus1 stok, ropt (rcat [rstr "for", plus1 stok]), ropt (oneOf "'\""),
  .grp 1 (lplus (noneOf "'\"")), ropt (oneOf "'\""),
  ror [rch '.', .eol, rch '?']]

/-- `/(?:what is|what's|tell me about|who is|who are)\s+(.+?)(?:\.|$|\?)/i`. -/
def qPat2 : Re := rcat [
  ror [rstr "what is", rstr "what's", rstr "tell me about", rstr "who is",
       rstr "who are"],
  plus1 stok, .grp 1 (lplus .dot), ror [rch '.', .eol, rch '?']]

/-- `/(?:current|latest|recent|now|today)\s+(.+?)(?:\.|$|\?)/i`. -/
def qPat3 : Re := rcat [
  ror [rstr "current", rstr "latest", rstr "recent", rstr "now", rstr "today"],
  plus1 stok, .grp 1 (lplus .dot), ror [rch '.', .eol, rch '?']]

/-- The four `new RegExp(…, 'i')` agent-decision patterns of method 5's
natural-language detection, for a given registered function name. -/
def agentPats (fname : String) : List Re := [
  rcat [ror [rcat [rstr "I ",
                   ror [rstr "will", rstr "need to", rstr "should",
                        rstr "must", rstr "can"],
                   rch ' ',
                   ror [rstr "call", rstr "use", rstr "invoke", rstr "execute"]],
             rcat [rstr "Let me ",
                   ror [rstr "call", rstr "use", rstr "get", rstr "fetch"]],
             rcat [rstr "I'll ", ror [rstr "call", rstr "use", rstr "get"]]],
        plus1 stok, rstr fname],
  rcat [rstr fname, rstar stok, rch '('],
  rcat [ror [rstr "using", rstr "via", rstr "with"], plus1 stok, rstr fname],
  rcat [ror [rstr "need", rstr "require", rstr "should use"], plus1 stok,
        rstr fname]]

/-- `/(?:weather|temperature|forecast).*?(?:in|at|for)\s+([A-Z][^.!?]+?)(?:[.!?]|$)/i`
(weather auto-trigger location fallback, first alternative). -/
def wFall1 : Re := rcat [
  ror [rstr "weather", rstr "temperature", rstr "forecast"],
  lstar .dot, ror [rstr "in", rstr "at", rstr "for"], plus1 stok,
  .grp 1 (rcat [azU, lplus (noneOf ".!?")]), ror [oneOf ".!?", .eol]]

/-- `/(?:in|at|for)\s+([A-Z][^.!?]+?)(?:[.!?]|$)/i`
(weather auto-trigger location fallback, second alternative). -/
def wFall2 : Re := rcat [
  ror [rstr "in", rstr "at", rstr "for"], plus1 stok,
  .grp 1 (rcat [azU, lplus (noneOf ".!?")]), ror [oneOf ".!?", .eol]]

end CfAgent

namespace CfAgent

/-! ## `parseFunctionArguments` (workflow.js) -/

/-- `parseFunctionArguments(argsString)`: splits `key=value` pairs with the
source's two regexes and converts numeric-looking values with
`parseFloat` under the `!isNaN(value) && value.trim() !== ''` guard. -/
def parseFunctionArguments (argsString : String) : List (String × JVal) :=
  if argsString == "" || jsTrim argsString == "" then []
  else
    (reAll false false argPairG argsString).foldl
      (fun args part =>
        match reFirst false false argPairInner part with
        | some m =>
          let key := (grpGet m 1).getD ""
          let value :=
            match grpGet m 2 with
            | some v => if v == "" then (grpGet m 3).getD "" else v
            | none => (grpGet m 3).getD ""
          match numParse value with
          | some q => aset args key (.num q)
          | none => aset args key (.str value)
        | none => args)
      []

/-! ## `extractArgumentsFromText` (workflow.js)

The `requiresCurrentInfo` flag stands for the source's read of
`this.state.context?.requiresCurrentInfo` in the `search_web` branch. -/

/-- First pattern in the list whose match has a non-empty group 1
(the source loops `for (const pattern of …) { const match = text.match(p);
if (match && match[1]) { …; break; } }`). -/
def firstGroup1 (ci : Bool) (pats : List Re) (text : String) : Option String :=
  match pats with
  | [] => none
  | p :: ps =>
    match reFirst ci false p text with
    | some m =>
      match grpGet m 1 with
      | some g => if g == "" then firstGroup1 ci ps text else some g
      | none => firstGroup1 ci ps text
    | none => firstGroup1 ci ps text

/-- `extractArgumentsFromText(text, functionName)`. The `calculate`
pattern list mixes flags in the source (`/i`, none, `/i`); the second
pattern is all-literal digits and operators, so evaluating every pattern
case-insensitively is exact. -/
def extractArgumentsFromText (text : String) (functionName : String)
    (reqCur : Bool) : List (String × JVal) :=
  match AVAILABLE_FUNCTIONS.find? (fun f => f.name == functionName) with
  | none => []
  | some _ =>
    if functionName == "get_weather" then
      let args : List (String × JVal) :=
        match firstGroup1 true [locPat1, locPat2, locPat3] text with
        | some g => [("location", .str (jsTrim g))]
        | none => []
      if reTest true false fahPat text then
        aset args "unit" (.str "fahrenheit")
      else if reTest true false celPat text then
        aset args "unit" (.str "celsius")
      else args
    else if functionName == "calculate" then
      match firstGroup1 true [calcPat1, calcPat2, calcPat3] text with
      | some g => [("expression", .str (jsTrim g))]
      | none => []
    else if functionName == "convert_currency" then
      let args : List (String × JVal) :=
        match reFirst true false amountPat text with
        | some m =>
          (match numParse ((grpGet m 1).getD "") with
           | some q => [("amount", .num q)]
           | none => [])
        | none => []
      let currencyCodes := ["USD", "EUR", "GBP", "JPY", "CNY", "CAD", "AUD"]
      let args :=
        match reFirst true false fromPat text with
        | some m =>
          let c := jsUpper ((grpGet m 1).getD "")
          if currencyCodes.contains c then aset args "from" (.str c) else args
        | none => args
      match reFirst true false toPat text with
      | some m =>
        let c := jsUpper ((grpGet m 1).getD "")
        if currencyCodes.contains c then aset args "to" (.str c) else args
      | none => args
    else if functionName == "get_current_time" then
      match firstGroup1 true [tzPat1, tzPat2] text with
      | some g => [("timezone", .str (jsTrim g))]
      | none => []
    else if functionName == "search_web" then
      match firstGroup1 true [qPat1, qPat2, qPat3] text with
      | some g => [("query", .str (jsTrim g))]
      | none => if reqCur then [("query", .str (jsTrim text))] else []
    else []

/-! ## `detectAgentFunctionCalls` (workflow.js)

The detector's result is `Except String (Option (List ToolCall))`: the
`.error` case models the exception a malformed `arguments` string raises
through `JSON.parse` in methods 1–2 (method 3 catches its own parse
failures); `none` models the `null` the final line returns when no method
produced a call. -/

/-- Method 1's per-element mapping over `rawResponse.tool_calls`. -/
def m1Map (call : JVal) : Except String ToolCall :=
  let nm := jsOr (jsGet (jsGet call "function") "name") (jsGet call "name")
  let fargs := jsGet (jsGet call "function") "arguments"
  match fargs with
  | .str s => (jsonParse s).map (fun a => ⟨nm, a⟩)
  | _ => .ok ⟨nm, jsOr (jsOr fargs (jsGet call "arguments")) (.obj [])⟩

/-- Method 2's single call from `rawResponse.function_call`. -/
def m2Call (fc : JVal) : Except String ToolCall :=
  match jsGet fc "arguments" with
  | .str s => (jsonParse s).map (fun a => ⟨jsGet fc "name", a⟩)
  | a => .ok ⟨jsGet fc "name", jsOr a (.obj [])⟩

/-- Method 3: opportunistic JSON objects embedded in the response text;
invalid JSON and unregistered names are skipped. -/
def m3One (m : String) : Option ToolCall :=
  match jsonParse m with
  | .ok parsed =>
    let funcName := jsOr (jsOr (jsOr (jsGet parsed "function")
      (jsGet parsed "name")) (jsGet parsed "tool_name"))
      (jsGet parsed "function_name")
    if truthy funcName && isRegisteredName funcName then
      some ⟨funcName,
        jsOr (jsOr (jsOr (jsGet parsed "arguments") (jsGet parsed "args"))
          (jsGet parsed "params")) (.obj [])⟩
    else none
  | .error _ => none

/-- Method 3 over the three JSON patterns, in source order. -/
def method3Calls (text : String) : List ToolCall :=
  (jsonPats.map (fun p => reAll false false p text)).flatten.filterMap m3One

/-- Method 4: the `[TOOL: name(args)]` marker. -/
def method4Calls (text : String) : List ToolCall :=
  match reFirst true false toolCallPat text with
  | some m =>
    let funcName := (grpGet m 1).getD ""
    let args := parseFunctionArguments ((grpGet m 2).getD "")
    if functionNames.contains funcName then [⟨.str funcName, .obj args⟩]
    else []
  | none => []

/-- The weather auto-trigger's keyword test on the lowercased user
message. -/
def weatherTrigger (lowerUser : String) : Bool :=
  jsIncl lowerUser "weather" || jsIncl lowerUser "temperature" ||
  jsIncl lowerUser "forecast" || jsIncl lowerUser "how cold" ||
  jsIncl lowerUser "how hot"

/-- The year/current-keyword test the search auto-trigger adds to the
`requiresCurrentInfo` flag. -/
def hasYearKeywords (lowerUser : String) : Bool :=
  jsIncl lowerUser "2025" || jsIncl lowerUser "2026" ||
  jsIncl lowerUser "this year" || jsIncl lowerUser "current year"

/-- The synthesized `get_weather` call of the weather auto-trigger. -/
def weatherCall (userMessage : String) (reqCur : Bool) : ToolCall :=
  let args := extractArgumentsFromText userMessage "get_weather" reqCur
  let loc := aget args "location"
  let locBad :=
    if !(truthy loc) then true
    else match loc with
         | .str s => jsTrim s == ""
         | _ => false
  let args :=
    if locBad then
      let lm :=
        match reFirst true false wFall1 userMessage with
        | some m => some m
        | none => reFirst true false wFall2 userMessage
      aset args "location"
        (.str (match lm with
               | some m => jsTrim ((grpGet m 1).getD "")
               | none => "San Francisco"))
    else args
  ⟨.str "get_weather", .obj args⟩

/-- The synthesized `search_web` call of the current-information
auto-trigger. -/
def searchCall (responseText userMessage lowerUser : String)
    (reqCur : Bool) : ToolCall :=
  let args := extractArgumentsFromText responseText "search_web" reqCur
  let q := aget args "query"
  let qBad :=
    if !(truthy q) then true
    else match q with
         | .str s => jsTrim s == ""
         | _ => false
  let args :=
    if qBad then
      aset args "query"
        (.str (if userMessage == "" then "current information" else userMessage))
    else args
  let qs := match aget args "query" with | .str s => s | _ => ""
  let args :=
    if (jsIncl lowerUser "2025" || jsIncl lowerUser "2026") &&
       !(jsIncl qs "2025") && !(jsIncl qs "2026") then
      if jsIncl lowerUser "2026" then aset args "query" (.str (qs ++ " 2026"))
      else if jsIncl lowerUser "2025" then aset args "query" (.str (qs ++ " 2025"))
      else args
    else args
  ⟨.str "search_web", .obj args⟩

/-- Natural-language detection for one registered name: the first of the
four agent patterns that tests true and yields acceptable arguments
(non-empty, or none required) produces a call; a pattern that tests true
with unacceptable arguments falls through to the next pattern. -/
def tryAgentPats (text : String) (reqCur : Bool) (fname : String) :
    List Re → Option ToolCall
  | [] => none
  | p :: ps =>
    if reTest true false p text then
      let args := extractArgumentsFromText text fname reqCur
      if args.length > 0 || (requiredOf fname).length == 0 then
        some ⟨.str fname, .obj args⟩
      else tryAgentPats text reqCur fname ps
    else tryAgentPats text reqCur fname ps

/-- Natural-language detection over every registered name, in registry
order. -/
def method6Calls (text : String) (reqCur : Bool) : List ToolCall :=
  functionNames.filterMap (fun fn => tryAgentPats text reqCur fn (agentPats fn))

/-- The first `user`-role message of the prepared context
(`this.state.context?.messages?.find(m => m.role === 'user')?.content || ''`). -/
def firstUserContent (ctxMsgs : List Msg) : String :=
  match ctxMsgs.find? (fun m => m.role == "user") with
  | some m => m.content
  | none => ""

/-- Method 1's mapping over the whole `tool_calls` array (`Array.map`
throws out of the whole detector at the first element whose structured
`arguments` string fails to parse). -/
def m1MapAll : List JVal → Except String (List ToolCall)
  | [] => .ok []
  | c :: cs =>
    match m1Map c with
    | .ok t => (m1MapAll cs).map (fun ts => t :: ts)
    | .error e => .error e

/-- `detectAgentFunctionCalls(responseText, rawResponse)`.  `ctxMsgs` and
`reqCur` stand for the reads of `this.state.context` (the prepared message
list and the `requiresCurrentInfo` flag). -/
def detectAgentFunctionCalls (responseText : String) (raw : JVal)
    (ctxMsgs : List Msg) (reqCur : Bool) :
    Except String (Option (List ToolCall)) :=
  let tc := jsGet raw "tool_calls"
  if truthy tc && isArrV tc then
    match tc with
    | .arr l => (m1MapAll l).map some
    | _ => .ok (some [])
  else
    let fc := jsGet raw "function_call"
    if truthy fc then (m2Call fc).map (fun c => some [c])
    else
      let fc34 := method3Calls responseText ++ method4Calls responseText
      let userMessage := firstUserContent ctxMsgs
      let lowerUser := jsLower userMessage
      if weatherTrigger lowerUser then
        .ok (some (fc34 ++ [weatherCall userMessage reqCur]))
      else if reqCur || hasYearKeywords lowerUser then
        .ok (some (fc34 ++ [searchCall responseText userMessage lowerUser reqCur]))
      else
        let all := fc34 ++ method6Calls responseText reqCur
        .ok (if all.length > 0 then some all else none)

end CfAgent

namespace CfAgent

/-! ## The response sanitizer (workflow.js, final-answer branch of
`callAIAgent`)

`verbosePatterns` transcribes the source's 41 `/gi` removal patterns in
order; `disclaimerStarters` its 7 `/gim` patterns.  The common tail
`[^.]*\.\s*` is `tdot`. -/

/-- `[^.]*\.\s*`. -/
def tdot : Re := rcat [rstar (noneOf "."), rch '.', rstar stok]

/-- The 41 `verbosePatterns`, in source order. -/
def verbosePatterns : List Re := [
  rcat [rstr "I'm not able to provide", tdot],
  rcat [rstr "I can suggest using", tdot],
  rcat [rstr "You can use ", ropt (rstr "the "), rstar (noneOf "."),
        rstr "tool", tdot],
  rcat [rstr "To use ", ropt (rstr "the "), rstar (noneOf "."),
        rstr "tool", tdot],
  rcat [rstr "Please note that ", ropt (rstr "this "), rstr "tool", tdot],
  rcat [rstr "Here's an example of what", tdot],
  rcat [rstr "Example Output", tdot],
  rcat [rstr "get_weather", plus1 stok, azU, tdot],
  rcat [rstr "To get ", ropt (rstr "the "), ropt (rstr "most "),
        ror [rstr "up-to-date", rstr "latest", rstr "current"],
        rstr " information", tdot],
  rcat [rstr "To find ", ropt (rstr "the "), rstr "current information", tdot],
  rcat [rstr "I ",
        ror [rstr "will", rstr "need to", rstr "should", rstr "must",
             rstr "am going to", rstr "'ll"],
        rch ' ', ror [rstr "use", rstr "search", rstr "look up"], tdot],
  rcat [rstr "I ",
        ror [rstr "will", rstr "need to", rstr "should", rstr "must"],
        rstr " use ", ropt (rstr "the "),
        ror [rstr "search_web", rstr "get_weather", rstr "get_current_time",
             rstr "calculate", rstr "convert_currency"],
        rstr " tool", tdot],
  rcat [rstr "Using ", ropt (rstr "the "),
        ror [rstr "search_web", rstr "get_weather", rstr "get_current_time",
             rstr "calculate", rstr "convert_currency"],
        rstr " tool", tdot],
  rcat [rstr "I've searched ", ror [rstr "for", rstr "the web"], tdot],
  rcat [rstr "According to ", ropt (rstr "the "),
        ror [rstr "latest", rstr "search results", rstr "my search",
             rstr "the search"], tdot],
  rcat [rstr "As of my knowledge cutoff", tdot],
  rcat [rstr "As of my knowledge in 2023", tdot],
  rcat [rstr "my knowledge in 2023", tdot],
  rcat [rstr "However, please note that my training data", tdot],
  rcat [rstr "my training data may be outdated", tdot],
  rcat [rstr "my training data only goes up until", tdot],
  rcat [rstr "my training data", tdot],
  rcat [rstr "However, I'm a large language model", tdot],
  rcat [rstr "I'm a large language model", tdot],
  rcat [rstr "For the most up-to-date information", tdot],
  rcat [rstr "I recommend checking", tdot],
  rcat [rstr "please note that", tdot],
  rcat [rstr "However, please note", tdot],
  rcat [rstr "However, I'm", tdot],
  rcat [rstr "I may not have the most up-to-date information", tdot],
  rcat [rstr "To get the most current information", tdot],
  rcat [rstr "I'll use the search_web tool", tdot],
  rcat [rstr "According to the latest information", tdot],
  rcat [rstr "According to my knowledge", tdot],
  rcat [rstr "Based on ", ropt (rstr "the "),
        ror [rstr "search results", rstr "latest information",
             rstr "my search", rstr "the search"], tdot],
  rcat [rstr "I found that", tdot],
  rcat [rstr "The search ",
        ror [rstr "results", rstr "shows", rstr "indicates", rstr "reveals"],
        tdot],
  rcat [rstr "After ",
        ror [rstr "searching", rstr "using the tool", rstr "looking up"],
        tdot],
  rcat [ror [rstr "From", rstr "Based on"], rch ' ', ropt (rstr "the "),
        ror [rstr "search", rstr "latest information", rstr "web search"],
        tdot],
  rcat [ror [rstr "I", rstr "I'll", rstr "I will"], rch ' ',
        ror [rstr "search", rstr "look up", rstr "check"], tdot],
  rcat [rstr "Let me ", ror [rstr "search", rstr "look up", rstr "check"],
        tdot]]

/-- The 7 `disclaimerStarters` (`/gim`), in source order. -/
def disclaimerStarters : List Re := [
  rcat [.bol, rstr "As of my knowledge", tdot],
  rcat [.bol, rstr "However, I'm", tdot],
  rcat [.bol, rstr "However, please note", tdot],
  rcat [.bol, rstr "my training data", tdot],
  rcat [.bol, rstr "I may not have", tdot],
  rcat [.bol, rstr "To get the most", tdot],
  rcat [.bol, rstr "I'll use the", tdot]]

/-- `/\s+/g`. -/
def wsPat : Re := plus1 stok

/-- `/\n\s*\n/g`. -/
def nlPat : Re := rcat [rch '\n', rstar stok, rch '\n']

/-- `/\.\s*\./g`. -/
def dotdotPat : Re := rcat [rch '.', rstar stok, rch '.']

/-- `/^\s*[.,]\s*/g` (not multiline: only anchors at the very start). -/
def leadPunct : Re := rcat [.bol, rstar stok, oneOf ".,", rstar stok]

/-- `/\d+\s+0\s+R(\s+\d+\s+0\s+R){3,}/` via its repeated part. -/
def pdfNumPart : Re := rcat [plus1 stok, plus1 dtok, plus1 stok, rch '0',
  plus1 stok, rch 'R']

/-- `/\d+\s+0\s+R(\s+\d+\s+0\s+R){3,}/`. -/
def pdfNumPat : Re := rcat [plus1 dtok, plus1 stok, rch '0', plus1 stok,
  rch 'R', pdfNumPart, pdfNumPart, pdfNumPart, rstar pdfNumPart]

/-- The `metadataPhrases` list. -/
def metadataPhrases : List String := [
  "the document content appears", "the document starts with",
  "the document includes", "the document also includes",
  "the document contains", "pdf file with", "breakdown of the content",
  "here's a breakdown", "metadata", "xmp", "adobe indesign",
  "bitspercomponent", "colorspace", "image object", "xmp core",
  "adobe xmp core", "embedded object", "pdf structure"]

/-- The `noisePhrases` list. -/
def noisePhrases : List String := [
  "collection of fragments", "anomalies", "repetitive", "random sequences",
  "discernible patterns", "meaningful content", "coherent",
  "anomalous characters", "repeated sequences",
  "random sequences of numbers", "fragments and anomalies"]

/-- `/(.)\1{10,}/.test(s)`: a run of at least 11 equal characters, the
character not being a line terminator (which `.` excludes). -/
def repRunGo : List Char → Bool
  | [] => false
  | c :: cs =>
    (!(c == '\n' || c == '\r') && (cs.takeWhile (fun d => d == c)).length + 1 ≥ 11)
      || repRunGo cs

/-- `hasRepeatedChars`. -/
def hasRepeatedRun (s : String) : Bool := repRunGo s.data

/-- The fixed guidance message substituted for metadata/noise-dominated
answers. -/
def pdfGuidance : String := "I couldn't extract meaningful content from this PDF. The document appears to contain mostly metadata, structural information, or unreadable text (possibly image-based or corrupted). Please try:\n\n1. Converting the PDF to a text file (.txt) and uploading that\n2. Copying the PDF text content to a text file\n3. Using a URL to an article or webpage instead\n4. Ensuring the PDF contains selectable text (not just images)\n5. If the PDF is scanned, use OCR to extract text first"

/-- The uncertainty note prepended when some executed tool reported
`success: false`. -/
def toolFailurePrefix : String :=
  "⚠️ Note: Some information may be uncertain as some tools failed to execute.\n\n"

/-- Lines 763–882 of workflow.js: trim, optional failure note, five passes
of the verbose patterns, the multiline disclaimer starters, whitespace
collapses, the metadata/noise replacement and the punctuation cleanup —
everything before the final minimum-length revert. -/
def cleanPipeline (hasToolFailures : Bool) (responseText : String) : String :=
  let c := jsTrim responseText
  let c := if hasToolFailures then toolFailurePrefix ++ c else c
  let c := (List.range 5).foldl
    (fun acc _ => verbosePatterns.foldl (fun a p => reRepl true false p "" a) acc) c
  let c := disclaimerStarters.foldl (fun a p => reRepl true true p "" a) c
  let c := jsTrim (reRepl false false nlPat "\n" (reRepl false false wsPat " " c))
  let lower := jsLower c
  let mCount := (metadataPhrases.filter (fun p => jsIncl lower p)).length
  let nCount := (noisePhrases.filter (fun p => jsIncl lower p)).length
  let c :=
    if mCount ≥ 3 || nCount ≥ 2 || (mCount ≥ 2 && c.length < 500) ||
       hasRepeatedRun c || reTest false false pdfNumPat c then
      pdfGuidance
    else c
  let c := jsTrim (reRepl false false leadPunct ""
    (reRepl false false dotdotPat "." (reRepl false false wsPat " " c)))
  jsTrim (reRepl false false wsPat " " c)

/-- Lines 763–887: the full sanitizer, including the final revert — when
cleaning leaves fewer than 10 characters, the trimmed original response
text is returned instead. -/
def sanitizeResponse (hasToolFailures : Bool) (responseText : String) : String :=
  let c := cleanPipeline hasToolFailures responseText
  if c.length < 10 then jsTrim responseText else c

end CfAgent

namespace CfAgent

/-! ## The agent loop (`callAIAgent`, workflow.js)

The model service is an oracle `ai : Nat → AIOut` indexed by the number of
model invocations already made (primary and fallback calls both consume
one index); the tool executor reached through `executeFunction` is an
oracle `tools : ToolCall → ExecOut`. -/

/-- Outcome of one `env.AI.run` invocation. -/
inductive AIOut where
  | ok (resp : JVal)
  | fail (msg : String)

/-- Outcome of one `executeFunction` invocation. -/
inductive ExecOut where
  | ok (v : JVal)
  | threw (msg : String)

/-- One `functionCallsExecuted` entry (successful executions only, as in
the source). -/
structure FceEntry where
  name : JVal
  args : JVal
  result : JVal

/-- One `functionResults` entry. -/
structure FuncResult where
  name : JVal
  result : JVal

/-- The loop's mutable locals: `iteration`, the running count of model
invocations, `currentMessages`, `toolsUsed`, `functionCallsExecuted`. -/
structure LoopSt where
  iteration : Nat
  callCount : Nat
  msgs : List Msg
  toolsUsed : List JVal
  fce : List FceEntry

/-- The loop's `finalResponse` record (timestamps omitted). -/
structure FinalResp where
  content : JVal
  model : String
  tokens : JVal := .num 0
  error : Option String := none
  toolsUsed : List JVal := []
  fce : List FceEntry := []
  agentIterations : Option Nat := none

/-- `maxIterations`. -/
def maxIterations : Nat := 5

/-- Response-text extraction
(`response.response || response.text || response.content || ''`, with the
`String(responseText || '')` coercion for non-string fields). -/
def respTextOf (resp : JVal) : String :=
  if truthy resp then
    let rt := jsOr (jsOr (jsOr (jsGet resp "response") (jsGet resp "text"))
      (jsGet resp "content")) (.str "")
    match rt with
    | .str s => s
    | v => jsToString (jsOr v (.str ""))
  else ""

/-- The authentication-error classification of a caught message. -/
def isAuthMsg (m : String) : Bool :=
  jsIncl m "Not logged in" || jsIncl m "not logged in" ||
  jsIncl m "authentication" || jsIncl m "login"

/-- The narrower check applied to the fallback model's failure. -/
def isLoginMsg (m : String) : Bool :=
  jsIncl m "Not logged in" || jsIncl m "not logged in"

/-- The fixed authentication remediation answer. -/
def authContent : String := "I apologize, but I'm unable to process your request because Cloudflare authentication is required.\n\nTo fix this, please run:\n1. `wrangler login` to authenticate with Cloudflare\n2. Or ensure you're logged in with: `wrangler whoami`\n\nThis is required to use Cloudflare Workers AI. Once authenticated, I'll be able to help you!"

/-- The terminal authentication response. -/
def authFinal : FinalResp :=
  { content := .str authContent, model := "error-auth",
    error := some "Authentication required" }

/-- `response2.response || response2 || 'I apologize, …'`. -/
def fallbackContent (r2 : JVal) : JVal :=
  jsOr (jsOr (jsGet r2 "response") r2)
    (.str "I apologize, but I was unable to generate a response.")

/-- The terminal response produced by a successful fallback-model call. -/
def fallbackFinal (r2 : JVal) : FinalResp :=
  { content := fallbackContent r2, model := "llama-3.1-8b-instruct" }

/-- The degraded answer when the iteration cap is reached with no final
response (the `${maxIterations}` interpolation evaluated at 5). -/
def maxIterContent : String := "I apologize, but I'm experiencing technical difficulties processing your request. \n        I attempted to use tools 5 times but couldn't complete the task. \n        Please try rephrasing your question or contact support."

/-- The `finalResponse` assembled when the cap was reached. -/
def maxIterFinal (st : LoopSt) : FinalResp :=
  { content := .str maxIterContent, model := "error",
    error := some "Max agent iterations reached",
    toolsUsed := st.toolsUsed, fce := st.fce }

/-- The apology substituted for an empty model answer. -/
def emptyRespApology : String := "I apologize, but I couldn't generate a response. Please try rephrasing your question."

/-- `executeFunction` over the detected calls: a successful execution
records a result, a `functionCallsExecuted` entry and a `toolsUsed` push;
a thrown execution is caught per-call and becomes a result object with
`success: false` and `confidence: 'low'` (no entry, no `toolsUsed`
push). -/
structure ExecAcc where
  results : List FuncResult
  entries : List FceEntry
  used : List JVal

/-- The caught-exception result object built for a tool whose executor
threw. -/
def threwResult (name : JVal) (m : String) : JVal := .obj [
  ("error", .str m),
  ("success", .jbool false),
  ("confidence", .str "low"),
  ("fallback", .jbool true),
  ("message", .str ("Tool " ++ jsToString name ++ " failed: " ++ m ++
    ". Please provide answer based on your knowledge, but indicate uncertainty."))]

/-- One pass of the execution loop's body over one detected call. -/
def execStep (tools : ToolCall → ExecOut) (acc : ExecAcc) (c : ToolCall) :
    ExecAcc :=
  match tools c with
  | .ok v =>
    ⟨acc.results ++ [⟨c.name, v⟩], acc.entries ++ [⟨c.name, c.args, v⟩],
     acc.used ++ [c.name]⟩
  | .threw m =>
    ⟨acc.results ++ [⟨c.name, threwResult c.name m⟩], acc.entries, acc.used⟩

/-- The per-call execution loop with its `try`/`catch`. -/
def execCalls (tools : ToolCall → ExecOut) (calls : List ToolCall) : ExecAcc :=
  calls.foldl (execStep tools) ⟨[], [], []⟩

/-- The confidence tagging applied to each result object while the tool
messages are appended: `success === false` gains `confidence: 'low'` and a
hedging note; a truthy result without an `error` field gains
`confidence: 'high'`; anything else is left unchanged.
`successIsFalse` is the strict `=== false` test on the `success` field. -/
def successIsFalse (v : JVal) : Bool :=
  match jsGet v "success" with
  | .jbool false => true
  | _ => false

/-- See `tagConfidence`. -/
def tagConfidence (v : JVal) : JVal :=
  if truthy v && successIsFalse v then
    jsSet (jsSet v "confidence" (.str "low")) "note"
      (.str "Tool execution failed. Answer based on your knowledge but indicate if you're uncertain.")
  else if truthy v && !(truthy (jsGet v "error")) then
    jsSet v "confidence" (.str "high")
  else v

/-- One formatted `search_web` result line block. -/
def fmtSearchItem (idx : Nat) (r : JVal) : String :=
  let s := toString (idx + 1) ++ ". " ++
    jsToString (jsOr (jsGet r "title") (.str "Result")) ++ "\n"
  let s := s ++ (if truthy (jsGet r "snippet") then
    "   " ++ jsToString (jsGet r "snippet") ++ "\n" else "")
  let s := s ++ (if truthy (jsGet r "url") then
    "   Source: " ++ jsToString (jsGet r "url") ++ "\n" else "")
  s ++ "\n"

/-- The `search_web` tool-message formatting. -/
def formatSearch (tc : JVal) : String :=
  let f := if truthy (jsGet tc "answer") then
    "Search Answer: " ++ jsToString (jsGet tc "answer") ++ "\n\n" else ""
  let f :=
    match jsGet tc "results" with
    | .arr rs =>
      if rs.length > 0 then
        f ++ "Search Results:\n" ++
          String.join (rs.enum.map (fun p => fmtSearchItem p.fst p.snd))
      else f
    | _ => f
  if truthy (jsGet tc "error") then
    "Search Error: " ++ jsToString (jsGet tc "error") ++ ". " ++
      jsToString (jsOr (jsGet tc "message") (.str ""))
  else f

/-- Content of one `tool`-role message: the formatted search text for
`search_web` (falling back to `JSON.stringify` when the formatting is
empty), the JSON serialization otherwise.  The argument is the already
tagged result object — in the source the tagging mutates the very object
that is then serialized. -/
def toolMsgContent (name : JVal) (tagged : JVal) : String :=
  if (match name with | .str s => s == "search_web" | _ => false) &&
     truthy tagged then
    let f := formatSearch tagged
    if f == "" then jstringify tagged else f
  else jstringify tagged

/-- The fixed synthetic user instruction appended after the tool
results. -/
def answerInstruction : String := "CRITICAL: Give ONLY the direct answer to the question. Use the search results above, but DO NOT mention searching, tools, or sources. Just provide the answer directly. Example: If asked \"Who is the president?\", answer \"Joe Biden\" (or whoever it is) - nothing else. No preambles, no explanations about searching."

/-- The `tool`-role message for one function result. -/
def toolMsgOf (fr : FuncResult) : Msg :=
  ⟨"tool", toolMsgContent fr.name (tagConfidence fr.result), some fr.name, none⟩

/-- Lines 689–749: the conversation extension performed when tool calls
were detected — one assistant turn with empty content carrying the raw
call list, one `tool` message per result (in detection order), then the
synthetic user instruction. -/
def appendToolTurn (msgs : List Msg) (calls : List ToolCall)
    (results : List FuncResult) : List Msg :=
  msgs ++ [⟨"assistant", "", none, some calls⟩] ++ results.map toolMsgOf ++
    [⟨"user", answerInstruction, none, none⟩]

/-- The final-answer assembly of the no-tool-calls branch: empty-answer
apology, sanitization, and the `finalResponse` record. -/
def finalizeResp (st : LoopSt) (responseText : String) (resp : JVal) :
    FinalResp :=
  let t := if responseText == "" || jsTrim responseText == "" then
    emptyRespApology else responseText
  let hasToolFailures := st.fce.any
    (fun e => truthy e.result && successIsFalse e.result)
  let cleaned := sanitizeResponse hasToolFailures t
  { content := .str cleaned, model := "llama-3.3-70b-instruct",
    tokens := jsOr (jsGet resp "tokens") (.num 0),
    toolsUsed := st.toolsUsed, fce := st.fce,
    agentIterations := some st.iteration }

/-- Result of one execution of the `while` body. -/
inductive PassOut where
  | cont (st : LoopSt)
  | fin (fr : FinalResp) (st : LoopSt)
  | thr (e : String) (st : LoopSt)

/-- The `catch` block of the loop body, entered with the failure message
(`st.callCount` already counts the call that failed).  On the first
iteration a non-auth failure retries once against the fallback model; an
auth-classified failure on the first iteration, or a fallback failure with
a login message, ends in the fixed authentication answer; a non-auth
failure on a later iteration is re-thrown; an auth-classified failure on a
later iteration matches no branch of the source's `catch` and falls
through, so the `while` loop simply re-enters with the same iteration
index. -/
def catchPath (ai : Nat → AIOut) (st : LoopSt) (e : String) : PassOut :=
  let isAuth := isAuthMsg e
  if isAuth && st.iteration == 0 then .fin authFinal st
  else if st.iteration == 0 && !isAuth then
    match ai st.callCount with
    | .ok r2 => .fin (fallbackFinal r2) {st with callCount := st.callCount + 1}
    | .fail e2 =>
      let st2 := {st with callCount := st.callCount + 1}
      if isLoginMsg e2 then .fin authFinal st2 else .thr e2 st2
  else if !isAuth then .thr e st
  else .cont st

/-- One execution of the `while` body: primary model call, detection, and
either tool execution + conversation extension (`continue`), final-answer
assembly (`break`), or the `catch` path.  A detection exception (a
malformed structured `arguments` string) lands in the same `catch` as a
model-call failure, as both sit inside the body's `try`. -/
def loopPass (ai : Nat → AIOut) (tools : ToolCall → ExecOut)
    (ctxMsgs : List Msg) (reqCur : Bool) (st : LoopSt) : PassOut :=
  match ai st.callCount with
  | .fail e => catchPath ai {st with callCount := st.callCount + 1} e
  | .ok resp =>
    let st1 := {st with callCount := st.callCount + 1}
    let text := respTextOf resp
    match detectAgentFunctionCalls text resp ctxMsgs reqCur with
    | .error de => catchPath ai st1 de
    | .ok od =>
      let calls := od.getD []
      if calls.length > 0 then
        let acc := execCalls tools calls
        .cont {st1 with
          iteration := st1.iteration + 1,
          msgs := appendToolTurn st1.msgs calls acc.results,
          toolsUsed := st1.toolsUsed ++ acc.used,
          fce := st1.fce ++ acc.entries.map
            (fun en => {en with result := tagConfidence en.result})}
      else .fin (finalizeResp st1 text resp) st1

/-- Result of running the `while` loop. `capped` is the exit through the
loop condition (`iteration ≥ 5`) with no final response; `fuelOut` is an
artifact of the explicit fuel, reachable only through unboundedly many
swallowed auth failures (see `catchPath`). -/
inductive LoopRes where
  | finalized (fr : FinalResp) (st : LoopSt)
  | capped (st : LoopSt)
  | thrown (e : String) (st : LoopSt)
  | fuelOut (st : LoopSt)

/-- The `while (iteration < maxIterations)` loop. -/
def agentLoop (ai : Nat → AIOut) (tools : ToolCall → ExecOut)
    (ctxMsgs : List Msg) (reqCur : Bool) : Nat → LoopSt → LoopRes
  | 0, st => .fuelOut st
  | Nat.succ f, st =>
    if st.iteration < maxIterations then
      match loopPass ai tools ctxMsgs reqCur st with
      | .cont st2 => agentLoop ai tools ctxMsgs reqCur f st2
      | .fin fr st2 => .finalized fr st2
      | .thr e st2 => .thrown e st2
    else .capped st

/-- The initial loop state (`currentMessages = [...context.messages]`). -/
def initSt (ctxMsgs : List Msg) : LoopSt := ⟨0, 0, ctxMsgs, [], []⟩

/-- Outcome of one invocation of the `callAIAgent` step handler. -/
inductive AgentOut where
  | done (resp : FinalResp) (st : LoopSt)
  | err (e : String) (st : LoopSt)
  | nofuel (st : LoopSt)

/-- `callAIAgent`: run the loop; a cap exit synthesizes the degraded
max-iterations answer; a thrown error propagates to the step runner. -/
def callAIAgent (ai : Nat → AIOut) (tools : ToolCall → ExecOut)
    (ctxMsgs : List Msg) (reqCur : Bool) (fuel : Nat) : AgentOut :=
  match agentLoop ai tools ctxMsgs reqCur fuel (initSt ctxMsgs) with
  | .finalized fr st => .done fr st
  | .capped st => .done (maxIterFinal st) st
  | .thrown e st => .err e st
  | .fuelOut st => .nofuel st

/-! ## The step retry runner and the pipeline (`execute`, workflow.js) -/

/-- Result of running one step through the retry loop: handler invocation
count, the backoff delays slept (in milliseconds), and the error thrown on
exhaustion (`none` on success). -/
structure StepRunOut where
  invocations : Nat
  sleeps : List Nat
  err : Option String

/-- The message of the error thrown on exhaustion. -/
def stepErrMsg (name : String) (retries : Nat) (lastErr : String) : String :=
  "Step " ++ name ++ " failed after " ++ toString retries ++ " attempts: " ++
    lastErr

/-- The `while (attempts < step.retries)` loop: `h a` is the outcome of
the handler's attempt `a` (`none` = success, `some e` = failure with
message `e`); after failure number `a + 1`, when attempts remain, the
runner sleeps `2 ^ (a + 1) * 1000` milliseconds.  (With zero configured
retries the source would dereference `lastError.message` on `null`; no
pipeline step is configured that way.) -/
def runStepGo (name : String) (retries : Nat) (h : Nat → Option String) :
    Nat → Nat → Option String → List Nat → StepRunOut
  | 0, inv, lastErr, sleeps =>
    ⟨inv, sleeps, some (match lastErr with
      | some e => stepErrMsg name retries e
      | none => "TypeError: Cannot read properties of null")⟩
  | Nat.succ rem, inv, _lastErr, sleeps =>
    match h inv with
    | none => ⟨inv + 1, sleeps, none⟩
    | some e =>
      let attempts := inv + 1
      let sleeps2 :=
        if attempts < retries then sleeps ++ [2 ^ attempts * 1000] else sleeps
      runStepGo name retries h rem attempts (some e) sleeps2

/-- Run one step with its retry budget. -/
def runStep (name : String) (retries : Nat) (h : Nat → Option String) :
    StepRunOut :=
  runStepGo name retries h retries 0 none []

/-- The agent pipeline's step list with its configured retry counts, in
execution order. -/
def pipelineSteps : List (String × Nat) :=
  [("validate_input", 3), ("prepare_context", 2), ("call_ai_agent", 3),
   ("process_response", 2), ("update_state", 2)]

/-- The `execute` driver over a step list: each step runs through the
retry runner; the first exhausted step's error aborts the whole pipeline
(the exception propagates to the caller and no result is produced).
`H i a` is the outcome of step `i`'s attempt `a`. -/
def execSteps (H : Nat → Nat → Option String) :
    List (String × Nat) → Nat → Except String Unit
  | [], _ => .ok ()
  | (name, retries) :: rest, idx =>
    match (runStep name retries (H idx)).err with
    | none => execSteps H rest (idx + 1)
    | some e => .error e

/-- The model oracle shifted past calls already consumed by earlier step
attempts. -/
def shiftAi (ai : Nat → AIOut) (off : Nat) : Nat → AIOut :=
  fun n => ai (off + n)

/-- The `call_ai_agent` step under the retry runner: up to `rem` attempts,
each running a fresh `callAIAgent` whose model oracle continues the global
invocation count; returns the total number of model invocations across
the attempts and whether some attempt succeeded. -/
def agentStepRetries (ai : Nat → AIOut) (tools : ToolCall → ExecOut)
    (ctxMsgs : List Msg) (reqCur : Bool) (fuel : Nat) :
    Nat → Nat → (Nat × Bool)
  | 0, _ => (0, false)
  | Nat.succ rem, off =>
    match callAIAgent (shiftAi ai off) tools ctxMsgs reqCur fuel with
    | .done _ st => (st.callCount, true)
    | .err _ st =>
      let r := agentStepRetries ai tools ctxMsgs reqCur fuel rem
        (off + st.callCount)
      (st.callCount + r.fst, r.snd)
    | .nofuel st => (st.callCount, false)

/-- Total model invocations of one pipeline run: of the five pipeline
steps only `call_ai_agent` invokes `env.AI.run`, so the pipeline's count
equals that step's count across its retry budget of 3. -/
def pipelineModelCalls (ai : Nat → AIOut) (tools : ToolCall → ExecOut)
    (ctxMsgs : List Msg) (reqCur : Bool) : Nat :=
  (agentStepRetries ai tools ctxMsgs reqCur 6 3 0).fst

end CfAgent

namespace CfAgent

/-! ## `validateInput` (workflow.js) -/

/-- The shape of `input.message` as the validation observes it: absent (or
another falsy non-string such as `undefined`/`null`), present but not a
string, or a string.  (String length is counted in characters; every
message in this development is ASCII, where this agrees with JS's UTF-16
count.) -/
inductive MsgField where
  | absent
  | notStr
  | str (s : String)

/-- The `input` record (fields beyond the message do not influence
validation). -/
structure InputRec where
  message : MsgField
  sessionId : String

/-- The `state.validation` artifact (timestamp omitted). -/
structure ValidationRec where
  isValid : Bool
  messageLength : Nat

/-- The slice of `this.state` that `validateInput` touches. -/
structure WfState where
  input : InputRec
  validation : Option ValidationRec := none

/-- The two validation error messages. -/
def invalidMsgErr : String := "Invalid message: must be a non-empty string"

/-- The over-length error message. -/
def tooLongErr : String := "Message too long: maximum 2000 characters"

/-- `validateInput`'s decision: `!input.message || typeof input.message
!== 'string'` rejects absent/falsy and non-string messages (the empty
string is falsy, so it is rejected by the first disjunct); then a length
strictly above 2000 is rejected. -/
def validateInput (m : MsgField) : Except String ValidationRec :=
  match m with
  | .absent => .error invalidMsgErr
  | .notStr => .error invalidMsgErr
  | .str s =>
    if s == "" then .error invalidMsgErr
    else if s.length > 2000 then .error tooLongErr
    else .ok ⟨true, s.length⟩

/-- The step handler: on success it records the artifact in
`state.validation` and touches nothing else. -/
def validateInputStep (st : WfState) : Except String WfState :=
  (validateInput st.input.message).map
    (fun v => {st with validation := some v})

/-! ## Shared concrete fixtures for the theorems -/

/-- The spec's auto-trigger scenario message. -/
def tokyoText : String := "What's the weather in Tokyo today?"

/-- A prepared context whose user turn is the Tokyo weather question. -/
def tokyoCtx : List Msg :=
  [⟨"system", "prompt", none, none⟩, ⟨"user", tokyoText, none, none⟩]

/-- A prepared context with an auto-trigger-free user turn. -/
def hiCtx : List Msg :=
  [⟨"system", "prompt", none, none⟩, ⟨"user", "hi", none, none⟩]

/-- The `get_weather` call the detector synthesizes for `tokyoText`. -/
def tokyoWeatherCall : ToolCall :=
  ⟨.str "get_weather", .obj [("location", .str "Tokyo today")]⟩

end CfAgent

namespace CfAgent

/-! ## Helper definitions and lemmas for the claim theorems -/

/-- The state carried by a loop result. -/
def resSt : LoopRes → LoopSt
  | .finalized _ st => st
  | .capped st => st
  | .thrown _ st => st
  | .fuelOut st => st

/-- Whether a loop result is the fuel artifact. -/
def isFuelOutB : LoopRes → Bool
  | .fuelOut _ => true
  | _ => false

/-- The number of model invocations recorded by a handler outcome. -/
def agentCalls : AgentOut → Nat
  | .done _ st => st.callCount
  | .err _ st => st.callCount
  | .nofuel st => st.callCount

/-- Whether a handler outcome is the fuel artifact. -/
def isNoFuelB : AgentOut → Bool
  | .nofuel _ => true
  | _ => false

/-- A `jsSetL` write is visible to a read of the same key. -/
lemma jsGetL_set_same (fs : List (String × JVal)) (k : String) (x : JVal) :
    jsGetL (jsSetL fs k x) k = x := by
  induction fs with
  | nil =>
    show jsGetL [(k, x)] k = x
    unfold jsGetL
    rw [List.find?_cons_of_pos _ (by simp)]
  | cons f fs ih =>
    unfold jsSetL
    by_cases h : (f.fst == k) = true
    · rw [if_pos h]
      simp [jsGetL, List.find?, h]
    · rw [if_neg h]
      unfold jsGetL at ih ⊢
      simp only [List.find?, h]
      simpa using ih

/-- The execution loop produces one result per detected call. -/
lemma execFold_len (tools : ToolCall → ExecOut) :
    ∀ (l : List ToolCall) (acc : ExecAcc),
      (l.foldl (execStep tools) acc).results.length =
        acc.results.length + l.length := by
  intro l
  induction l with
  | nil => intro acc; simp
  | cons c cs ih =>
    intro acc
    rw [List.foldl_cons, ih]
    unfold execStep
    cases tools c <;> simp <;> omega

/-- A message that is not auth-classified is in particular not
login-classified (the login substrings are among the auth substrings). -/
lemma authFalse_loginFalse (m : String) (h : isAuthMsg m = false) :
    isLoginMsg m = false := by
  unfold isAuthMsg at h
  unfold isLoginMsg
  simp only [Bool.or_eq_false_iff] at h ⊢
  exact ⟨h.1.1.1, h.1.1.2⟩

/-- `JSON.parse` throws only the modelled `SyntaxError`. -/
lemma jsonParse_err (s : String) (e : String) (h : jsonParse s = .error e) :
    e = jsonErr := by
  unfold jsonParse at h
  split at h
  · split at h
    · exact absurd h (by simp)
    · injection h with he
      exact he.symm
  · injection h with he
    exact he.symm

/-- Method 1 throws only the `JSON.parse` error. -/
lemma m1Map_err (c : JVal) (e : String) (h : m1Map c = .error e) :
    e = jsonErr := by
  unfold m1Map at h
  dsimp only at h
  split at h
  · rename_i s hs
    cases hp : jsonParse s with
    | ok v => rw [hp] at h; exact absurd h (by simp [Except.map])
    | error e2 =>
      rw [hp] at h
      simp [Except.map] at h
      exact h ▸ jsonParse_err s e2 hp
  · exact absurd h (by simp)

/-- Mapping method 1 over the array throws only the `JSON.parse` error. -/
lemma m1MapAll_err : ∀ (l : List JVal) (e : String),
    m1MapAll l = .error e → e = jsonErr := by
  intro l
  induction l with
  | nil => intro e h; exact absurd h (by simp [m1MapAll])
  | cons c cs ih =>
    intro e h
    unfold m1MapAll at h
    cases hm : m1Map c with
    | ok t =>
      rw [hm] at h
      cases hall : m1MapAll cs with
      | ok ts => rw [hall] at h; exact absurd h (by simp [Except.map])
      | error e2 =>
        rw [hall] at h
        simp [Except.map] at h
        exact h ▸ ih e2 hall
    | error e2 =>
      rw [hm] at h
      injection h with he
      exact he ▸ m1Map_err c e2 hm

/-- Method 2 throws only the `JSON.parse` error. -/
lemma m2Call_err (fc : JVal) (e : String) (h : m2Call fc = .error e) :
    e = jsonErr := by
  unfold m2Call at h
  split at h
  · rename_i s hs
    cases hp : jsonParse s with
    | ok v => rw [hp] at h; exact absurd h (by simp [Except.map])
    | error e2 =>
      rw [hp] at h
      simp [Except.map] at h
      exact h ▸ jsonParse_err s e2 hp
  · exact absurd h (by simp)

/-- The detector throws only the `JSON.parse` error (whose text is not
auth-classified). -/
lemma detect_err (text : String) (raw : JVal) (ctx : List Msg) (rq : Bool)
    (e : String)
    (h : detectAgentFunctionCalls text raw ctx rq = .error e) : e = jsonErr := by
  unfold detectAgentFunctionCalls at h
  dsimp only at h
  split at h
  · split at h
    · rename_i l hl
      cases hm : m1MapAll l with
      | ok ts => rw [hm] at h; exact absurd h (by simp [Except.map])
      | error e2 =>
        rw [hm] at h
        simp [Except.map] at h
        exact h ▸ m1MapAll_err l e2 hm
    · exact absurd h (by simp)
  · split at h
    · cases hm : m2Call (jsGet raw "function_call") with
      | ok t => rw [hm] at h; exact absurd h (by simp [Except.map])
      | error e2 =>
        rw [hm] at h
        simp [Except.map] at h
        exact h ▸ m2Call_err _ e2 hm
    · split at h
      · exact absurd h (by simp)
      · split at h
        · exact absurd h (by simp)
        · exact absurd h (by simp)

/-- Outcomes of the loop's `catch` block when the caught message is not
auth-classified and no model failure is auth-classified: the block ends in
a final response or a re-throw; a fallback call is consumed only on the
first iteration. -/
lemma catchPath_char (ai : Nat → AIOut)
    (hna : ∀ n e, ai n = .fail e → isAuthMsg e = false)
    (st : LoopSt) (e : String) (he : isAuthMsg e = false) :
    (∃ fr st2, catchPath ai st e = .fin fr st2 ∧
       (st2.callCount = st.callCount ∨
        (st.iteration = 0 ∧ st2.callCount = st.callCount + 1))) ∨
    (∃ e2 st2, catchPath ai st e = .thr e2 st2 ∧
       (st2.callCount = st.callCount ∨
        (st.iteration = 0 ∧ st2.callCount = st.callCount + 1))) := by
  unfold catchPath
  rw [he]
  by_cases h0 : (st.iteration == 0) = true
  · have h0' : st.iteration = 0 := by simpa using h0
    simp only [h0, Bool.false_and, Bool.not_false, Bool.and_true,
      Bool.false_eq_true, if_false, if_true]
    cases hai2 : ai st.callCount with
    | ok r2 =>
      left
      exact ⟨_, _, rfl, Or.inr ⟨h0', rfl⟩⟩
    | fail e2 =>
      have hl2 := authFalse_loginFalse e2 (hna _ _ hai2)
      right
      refine ⟨e2, {st with callCount := st.callCount + 1}, ?_,
        Or.inr ⟨h0', rfl⟩⟩
      simp [hl2]
  · have h0' : (st.iteration == 0) = false := by
      simpa using h0
    right
    refine ⟨e, _, ?_, Or.inl rfl⟩
    simp [h0']

/-- Outcomes of one loop pass when no model failure is auth-classified:
either the loop continues with the iteration index and the invocation
count both up by one, or it terminates this attempt (final response or
re-throw) having consumed one more invocation — two on the first
iteration's fallback path. -/
lemma loopPass_char (ai : Nat → AIOut) (tools : ToolCall → ExecOut)
    (ctxMsgs : List Msg) (reqCur : Bool)
    (hna : ∀ n e, ai n = .fail e → isAuthMsg e = false) (st : LoopSt) :
    (∃ st2, loopPass ai tools ctxMsgs reqCur st = .cont st2 ∧
       st2.iteration = st.iteration + 1 ∧ st2.callCount = st.callCount + 1) ∨
    (∃ fr st2, loopPass ai tools ctxMsgs reqCur st = .fin fr st2 ∧
       (st2.callCount = st.callCount + 1 ∨
        (st.iteration = 0 ∧ st2.callCount = st.callCount + 2))) ∨
    (∃ e2 st2, loopPass ai tools ctxMsgs reqCur st = .thr e2 st2 ∧
       (st2.callCount = st.callCount + 1 ∨
        (st.iteration = 0 ∧ st2.callCount = st.callCount + 2))) := by
  unfold loopPass
  cases hai : ai st.callCount with
  | fail e =>
    have he := hna _ _ hai
    rcases catchPath_char ai hna {st with callCount := st.callCount + 1} e he with
      ⟨fr, st2, hcp, hcc⟩ | ⟨e2, st2, hcp, hcc⟩
    · right; left
      refine ⟨fr, st2, hcp, ?_⟩
      rcases hcc with h | ⟨hz, h⟩
      · exact Or.inl h
      · exact Or.inr ⟨hz, h⟩
    · right; right
      refine ⟨e2, st2, hcp, ?_⟩
      rcases hcc with h | ⟨hz, h⟩
      · exact Or.inl h
      · exact Or.inr ⟨hz, h⟩
  | ok resp =>
    dsimp only
    cases hdet : detectAgentFunctionCalls (respTextOf resp) resp ctxMsgs reqCur with
    | error de =>
      have hde : isAuthMsg de = false := by
        rw [detect_err _ _ _ _ _ hdet]
        decide
      rcases catchPath_char ai hna {st with callCount := st.callCount + 1} de hde with
        ⟨fr, st2, hcp, hcc⟩ | ⟨e2, st2, hcp, hcc⟩
      · right; left
        refine ⟨fr, st2, hcp, ?_⟩
        rcases hcc with h | ⟨hz, h⟩
        · exact Or.inl h
        · exact Or.inr ⟨hz, h⟩
      · right; right
        refine ⟨e2, st2, hcp, ?_⟩
        rcases hcc with h | ⟨hz, h⟩
        · exact Or.inl h
        · exact Or.inr ⟨hz, h⟩
    | ok od =>
      dsimp only
      by_cases hc : (od.getD []).length > 0
      · rw [if_pos hc]
        left
        exact ⟨_, rfl, rfl, rfl⟩
      · rw [if_neg hc]
        right; left
        exact ⟨_, _, rfl, Or.inl rfl⟩

/-- The invariant of the agent loop under auth-free model failures: with
enough fuel the loop never exhausts it, the recorded invocation count
never exceeds the iteration cap of 5, and a state below the cap performs
at least one further invocation. -/
lemma loop_bound (ai : Nat → AIOut) (tools : ToolCall → ExecOut)
    (ctxMsgs : List Msg) (reqCur : Bool)
    (hna : ∀ n e, ai n = .fail e → isAuthMsg e = false) :
    ∀ (fuel : Nat) (st : LoopSt),
      st.callCount = st.iteration → st.iteration ≤ 5 →
      5 < st.iteration + fuel →
      isFuelOutB (agentLoop ai tools ctxMsgs reqCur fuel st) = false ∧
      (resSt (agentLoop ai tools ctxMsgs reqCur fuel st)).callCount ≤ 5 ∧
      (st.iteration < 5 →
        st.callCount <
          (resSt (agentLoop ai tools ctxMsgs reqCur fuel st)).callCount) ∧
      (¬ st.iteration < 5 →
        (resSt (agentLoop ai tools ctxMsgs reqCur fuel st)).callCount =
          st.callCount) := by
  intro fuel
  induction fuel with
  | zero => intro st h1 h2 h3; omega
  | succ f ih =>
    intro st hcc hle hfu
    rw [agentLoop]
    by_cases hi : st.iteration < maxIterations
    · rw [if_pos hi]
      have hi5 : st.iteration < 5 := hi
      rcases loopPass_char ai tools ctxMsgs reqCur hna st with
        ⟨st2, hp, hit2, hcc2⟩ | ⟨fr, st2, hp, hcc2⟩ | ⟨e2, st2, hp, hcc2⟩
      · rw [hp]
        dsimp only
        have h1 : st2.callCount = st2.iteration := by omega
        have h2 : st2.iteration ≤ 5 := by omega
        have h3 : 5 < st2.iteration + f := by omega
        obtain ⟨A, B, C, D⟩ := ih st2 h1 h2 h3
        refine ⟨A, B, fun _ => ?_, fun hnot => absurd hi5 hnot⟩
        by_cases h4 : st2.iteration < 5
        · have := C h4
          omega
        · have := D h4
          omega
      · rw [hp]
        dsimp only [resSt, isFuelOutB]
        refine ⟨rfl, ?_, fun _ => ?_, fun hnot => absurd hi5 hnot⟩
        · rcases hcc2 with h | ⟨hz, h⟩ <;> omega
        · rcases hcc2 with h | ⟨hz, h⟩ <;> omega
      · rw [hp]
        dsimp only [resSt, isFuelOutB]
        refine ⟨rfl, ?_, fun _ => ?_, fun hnot => absurd hi5 hnot⟩
        · rcases hcc2 with h | ⟨hz, h⟩ <;> omega
        · rcases hcc2 with h | ⟨hz, h⟩ <;> omega
    · rw [if_neg hi]
      have h5 : st.iteration = 5 := by
        unfold maxIterations at hi
        omega
      dsimp only [resSt, isFuelOutB]
      exact ⟨rfl, by omega, fun h => absurd h hi, fun _ => rfl⟩

end CfAgent

namespace CfAgent

/-! ## Concrete fixtures used by the claim theorems -/

/-- Raw model response carrying a structured `tool_calls` entry for
`calculate`. -/
def rawCalcTC : JVal := .obj [("tool_calls", .arr [.obj [("function",
  .obj [("name", .str "calculate"),
        ("arguments", .obj [("expression", .str "1+1")])])]])]

/-- Response text holding a method-4 bracket marker that method 6 also
recognizes. -/
def mixText : String := "[TOOL: convert_currency(amount=5 from=USD to=EUR)]"

/-- A tool executor that always succeeds with an empty object. -/
def anyTools : ToolCall → ExecOut := fun _ => .ok (.obj [])

/-- A model that fails with distinct non-auth errors on call 0 and call 1. -/
def net2Ai : Nat → AIOut :=
  fun n => if n == 0 then .fail "network down" else .fail "disk full"

/-- A model that always fails with an auth-classified error. -/
def authAi : Nat → AIOut := fun _ => .fail "authentication required"

/-- A model that always fails with a non-auth error. -/
def failAi : Nat → AIOut := fun _ => .fail "network error"

/-- A model that succeeds once and then fails with auth-classified
errors. -/
def wAi : Nat → AIOut :=
  fun n => if n == 0 then .ok (.obj []) else .fail "authentication required"

/-- A tool executor that always returns an empty object. -/
def okTools : ToolCall → ExecOut := fun _ => .ok (.obj [])

/-- A model that always succeeds with an empty object response. -/
def okAiW : Nat → AIOut := fun _ => .ok (.obj [])

/-- A model that always answers with a bracket call to the time tool. -/
def timeCallAi : Nat → AIOut :=
  fun _ => .ok (.obj [("response", .str "[TOOL: get_current_time()]")])

/-- A tool executor returning a fixed datetime object. -/
def timeTools : ToolCall → ExecOut :=
  fun _ => .ok (.obj [("datetime", .str "2026-01-01T00:00:00Z")])

/-- The detected time call of `timeCallAi`'s response. -/
def c8TimeCall : ToolCall := ⟨.str "get_current_time", .obj []⟩

/-- The tool-role message built from executing `c8TimeCall` with
`timeTools`. -/
def c8ToolMsg : Msg :=
  ⟨"tool", "\x7b\"datetime\":\"2026-01-01T00:00:00Z\",\"confidence\":\"high\"\x7d",
   some (.str "get_current_time"), none⟩

/-- The assistant turn appended for the detected time calls. -/
def c8Asst : Msg := ⟨"assistant", "", none, some [c8TimeCall, c8TimeCall]⟩

/-- The synthetic user instruction appended after every tool turn. -/
def c8Instr : Msg := ⟨"user", answerInstruction, none, none⟩

/-- The whole message suffix one tool iteration appends. -/
def c8Suffix : List Msg := [c8Asst, c8ToolMsg, c8ToolMsg, c8Instr]

/-- A tool result whose failure is signalled by an `error` field with no
`success` field, as `calculate` returns on a bad expression. -/
def errOnlyResult : JVal :=
  .obj [("error", .str "Could not calculate: x"), ("message", .str "boom")]

/-- A tool executor that always throws. -/
def thrTools : ToolCall → ExecOut := fun _ => .threw "boom"

/-- A concrete weather call for the executor theorems. -/
def cwCall : ToolCall := ⟨.str "get_weather", .obj [("location", .str "Paris")]⟩

/-- A step handler that fails every attempt with the same message. -/
def hW : Nat → Option String := fun _ => some "boom"

/-- A step handler that always succeeds. -/
def noneH : Nat → Option String := fun _ => none

/-- A pipeline handler schedule whose third step always fails. -/
def HW : Nat → Nat → Option String := fun i => if i == 2 then hW else noneH

/-- A message of exactly 2000 characters. -/
def msg2000 : String := String.mk (List.replicate 2000 'a')

/-- The claim's words for when validation accepts, stated directly from the
claim (absent, non-string or over-2000 messages fail, everything else is
accepted), to be compared with `validateInput` from the source. -/
def claimTenAccepts : MsgField → Bool
  | .absent => false
  | .notStr => false
  | .str s => decide (s.length ≤ 2000)

end CfAgent

namespace CfAgent

/-! ## The claim theorems -/

/-- C1 (amended): when no model failure is auth-classified, one attempt of
the call_ai_agent step invokes the model between 1 and 5 times inclusive
and the loop terminates within its fuel.  The claim's unconditional bound
over a whole pipeline run is refuted by `C1_cex`: step retries multiply
the per-attempt bound, and auth-classified failures on a later iteration
are swallowed without advancing the iteration index, so the count is
unbounded per attempt. -/
theorem C1_thm (ai : Nat → AIOut) (tools : ToolCall → ExecOut)
    (ctxMsgs : List Msg) (reqCur : Bool)
    (hna : ∀ n e, ai n = .fail e → isAuthMsg e = false) :
    1 ≤ agentCalls (callAIAgent ai tools ctxMsgs reqCur 6) ∧
    agentCalls (callAIAgent ai tools ctxMsgs reqCur 6) ≤ 5 ∧
    isNoFuelB (callAIAgent ai tools ctxMsgs reqCur 6) = false := by
  obtain ⟨A, B, C, D⟩ := loop_bound ai tools ctxMsgs reqCur hna 6 (initSt ctxMsgs)
    rfl (by show (0 : Nat) ≤ 5; omega) (by show 5 < 0 + 6; omega)
  have hC := C (by show (0 : Nat) < 5; omega)
  unfold callAIAgent
  cases hres : agentLoop ai tools ctxMsgs reqCur 6 (initSt ctxMsgs) with
  | finalized fr st => rw [hres] at B hC; exact ⟨hC, B, rfl⟩
  | capped st => rw [hres] at B hC; exact ⟨hC, B, rfl⟩
  | thrown e st => rw [hres] at B hC; exact ⟨hC, B, rfl⟩
  | fuelOut st => rw [hres] at A; exact absurd A (by simp [isFuelOutB])

/-- C1 witness: a model that always answers invokes exactly one call in
the attempt, within the bounds. -/
theorem C1_wit :
    1 ≤ agentCalls (callAIAgent okAiW okTools hiCtx false 6) ∧
    agentCalls (callAIAgent okAiW okTools hiCtx false 6) ≤ 5 ∧
    isNoFuelB (callAIAgent okAiW okTools hiCtx false 6) = false :=
  C1_thm okAiW okTools hiCtx false (fun n e h => by simp [okAiW] at h)

/-- C1 counterexample: with a handler that fails every attempt with a
non-auth error, the whole pipeline run makes 6 model invocations (2 per
attempt across 3 retries of call_ai_agent), exceeding 5; and a single
attempt under auth-classified failures after the first success reaches any
count the fuel allows (9 model invocations with fuel 9), because the
swallowed auth failures never advance the iteration index. -/
theorem C1_cex :
    pipelineModelCalls failAi okTools hiCtx false = 6 ∧
    ¬ (pipelineModelCalls failAi okTools hiCtx false ≤ 5) ∧
    agentCalls (callAIAgent wAi okTools tokyoCtx false 9) = 9 ∧
    ¬ (agentCalls (callAIAgent wAi okTools tokyoCtx false 9) ≤ 5) := by
  refine ⟨by decide, by decide, by decide, by decide⟩

/-- C2 (amended): with the Tokyo weather question as the user turn, when
methods 1 through 4 all yield nothing the detector synthesizes the single
get_weather call — but its location argument is the regex capture
"Tokyo today", not "Tokyo".  `C2_cex` also refutes "regardless of the
model's output": a structured `tool_calls` entry wins over the weather
trigger. -/
theorem C2_thm (text : String) (raw : JVal) (reqCur : Bool)
    (h1 : jsGet raw "tool_calls" = .undef)
    (h2 : jsGet raw "function_call" = .undef)
    (h3 : method3Calls text = [])
    (h4 : method4Calls text = []) :
    detectAgentFunctionCalls text raw tokyoCtx reqCur =
      .ok (some [tokyoWeatherCall]) := by
  unfold detectAgentFunctionCalls
  rw [h1, h2, h3, h4]
  rfl

/-- C2 witness: on an empty model response over the Tokyo context the
detector yields exactly the synthesized weather call. -/
theorem C2_wit :
    detectAgentFunctionCalls "" (.obj [("response", .str "hello")]) tokyoCtx
      true = .ok (some [tokyoWeatherCall]) :=
  C2_thm "" (.obj [("response", .str "hello")]) true rfl rfl rfl rfl

/-- C2 counterexample: the synthesized call's location is "Tokyo today",
not the claimed "Tokyo"; and a structured `tool_calls` entry beats the
weather trigger, so method 5 does not win regardless of the model's
output. -/
theorem C2_cex :
    detectAgentFunctionCalls "" (.obj []) tokyoCtx false =
      .ok (some [⟨.str "get_weather", .obj [("location", .str "Tokyo today")]⟩]) ∧
    "Tokyo today" ≠ "Tokyo" ∧
    detectAgentFunctionCalls "" rawCalcTC tokyoCtx false =
      .ok (some [⟨.str "calculate", .obj [("expression", .str "1+1")]⟩]) :=
  ⟨rfl, by decide, rfl⟩

/-- C3 (amended): a present `tool_calls` array short-circuits the cascade
— the detector's result is exactly method 1's mapping of that array, so a
response holding both a structured call and a bracket-marker call yields
only the structured call.  The unconditional no-mixing claim is refuted by
`C3_cex`: methods 3, 4 and 6 accumulate into one list. -/
theorem C3_thm (text : String) (ctxMsgs : List Msg) (reqCur : Bool)
    (raw : JVal) (l : List JVal) (h : jsGet raw "tool_calls" = .arr l) :
    detectAgentFunctionCalls text raw ctxMsgs reqCur = (m1MapAll l).map some := by
  unfold detectAgentFunctionCalls
  rw [h]
  rfl

/-- C3 witness: on a response with a structured calculate call plus a
bracket marker in the text, the detector returns method 1's result
alone. -/
theorem C3_wit :
    detectAgentFunctionCalls mixText rawCalcTC hiCtx false =
      (m1MapAll [.obj [("function", .obj [("name", .str "calculate"),
        ("arguments", .obj [("expression", .str "1+1")])])]]).map some :=
  C3_thm mixText hiCtx false rawCalcTC _ rfl

/-- C3 counterexample: a text whose bracket marker is matched by method 4
and again by method 6 produces the concatenation of both methods' lists —
two detection methods' results are mixed in one iteration. -/
theorem C3_cex :
    detectAgentFunctionCalls mixText (.obj []) hiCtx false =
      .ok (some (method4Calls mixText ++ method6Calls mixText false)) ∧
    (method4Calls mixText).length = 1 ∧
    (method6Calls mixText false).length = 1 := ⟨rfl, rfl, rfl⟩

/-- C4 (confirmed): a step configured with 3 attempts whose handler fails
every time runs the handler exactly 3 times, sleeps 2000 ms then 4000 ms,
and ends with the step-exhausted error carrying the step name and the last
error; when that step is call_ai_agent inside the pipeline, the pipeline
aborts with that error and returns no partial result. -/
theorem C4_thm (name : String) (h : Nat → Option String) (m0 m1 m2 : String)
    (h0 : h 0 = some m0) (h1 : h 1 = some m1) (h2 : h 2 = some m2)
    (H : Nat → Nat → Option String)
    (g0 : H 0 0 = none) (g1 : H 1 0 = none) (g2 : H 2 = h) :
    runStep name 3 h =
      ⟨3, [2000, 4000], some (stepErrMsg name 3 m2)⟩ ∧
    execSteps H pipelineSteps 0 =
      .error (stepErrMsg "call_ai_agent" 3 m2) := by
  have hrGen : ∀ nm : String,
      runStep nm 3 h = ⟨3, [2000, 4000], some (stepErrMsg nm 3 m2)⟩ := by
    intro nm
    unfold runStep runStepGo
    rw [h0]
    simp only []
    unfold runStepGo
    rw [h1]
    simp only []
    unfold runStepGo
    rw [h2]
    rfl
  refine ⟨hrGen name, ?_⟩
  unfold pipelineSteps execSteps
  have r0 : runStep "validate_input" 3 (H 0) = ⟨1, [], none⟩ := by
    unfold runStep runStepGo
    rw [g0]
  rw [r0]
  simp only []
  unfold execSteps
  have r1 : runStep "prepare_context" 2 (H 1) = ⟨1, [], none⟩ := by
    unfold runStep runStepGo
    rw [g1]
  rw [r1]
  simp only []
  unfold execSteps
  rw [g2, hrGen "call_ai_agent"]

/-- C4 witness: with a handler that always fails with "boom", the step
makes 3 attempts with backoffs 2000 and 4000 and the pipeline aborts with
the exhausted-step error. -/
theorem C4_wit :
    runStep "call_ai_agent" 3 hW =
      ⟨3, [2000, 4000], some (stepErrMsg "call_ai_agent" 3 "boom")⟩ ∧
    execSteps HW pipelineSteps 0 =
      .error (stepErrMsg "call_ai_agent" 3 "boom") :=
  C4_thm "call_ai_agent" hW "boom" "boom" "boom" rfl rfl rfl HW rfl rfl rfl

end CfAgent

namespace CfAgent

/-- C5 (amended): on a first-iteration model failure not classified as an
auth error the loop retries once against the fallback model; if the
fallback succeeds the pass finalizes with the fallback response, but if
the fallback also fails with a non-login error the pass RE-THROWS instead
of entering a degraded-answer state (the claim's terminal degraded state
is reached only when the second error is login-classified, and then it is
the auth apology, not an error-carrying degraded answer); a failure on any
later iteration that is not auth-classified propagates up with one model
call consumed.  Auth-classified later-iteration failures are swallowed
instead (see `C1_cex`). -/
theorem C5_thm (ai : Nat → AIOut) (tools : ToolCall → ExecOut)
    (ctxMsgs : List Msg) (reqCur : Bool) :
    (∀ e r2, ai 0 = .fail e → isAuthMsg e = false → ai 1 = .ok r2 →
       loopPass ai tools ctxMsgs reqCur (initSt ctxMsgs) =
         .fin (fallbackFinal r2) ⟨0, 2, ctxMsgs, [], []⟩) ∧
    (∀ e e2, ai 0 = .fail e → isAuthMsg e = false → ai 1 = .fail e2 →
       isLoginMsg e2 = false →
       loopPass ai tools ctxMsgs reqCur (initSt ctxMsgs) =
         .thr e2 ⟨0, 2, ctxMsgs, [], []⟩) ∧
    (∀ e e2, ai 0 = .fail e → isAuthMsg e = false → ai 1 = .fail e2 →
       isLoginMsg e2 = true →
       loopPass ai tools ctxMsgs reqCur (initSt ctxMsgs) =
         .fin authFinal ⟨0, 2, ctxMsgs, [], []⟩) ∧
    (∀ e, ai 0 = .fail e → isAuthMsg e = true →
       loopPass ai tools ctxMsgs reqCur (initSt ctxMsgs) =
         .fin authFinal ⟨0, 1, ctxMsgs, [], []⟩) ∧
    (∀ (st : LoopSt) (e3 : String), 1 ≤ st.iteration →
       ai st.callCount = .fail e3 → isAuthMsg e3 = false →
       loopPass ai tools ctxMsgs reqCur st =
         .thr e3 {st with callCount := st.callCount + 1}) := by
  refine ⟨?_, ?_, ?_, ?_, ?_⟩
  · intro e r2 h0 ha h1
    unfold loopPass catchPath
    simp [initSt, h0, ha, h1]
  · intro e e2 h0 ha h1 hl
    unfold loopPass catchPath
    simp [initSt, h0, ha, h1, hl]
  · intro e e2 h0 ha h1 hl
    unfold loopPass catchPath
    simp [initSt, h0, ha, h1, hl]
  · intro e h0 ha
    unfold loopPass catchPath
    simp [initSt, h0, ha]
  · intro st e3 hit h0 ha
    unfold loopPass catchPath
    have hne : (st.iteration == 0) = false := by
      cases hsi : st.iteration with
      | zero => rw [hsi] at hit; omega
      | succ n => rfl
    simp [h0, ha, hne]

/-- C5 witness: with distinct non-auth failures on calls 0 and 1 the first
pass re-throws the second error after two calls, and with an
auth-classified primary failure it finalizes the auth apology after one
call with no fallback attempt. -/
theorem C5_wit :
    loopPass net2Ai anyTools hiCtx false (initSt hiCtx) =
      .thr "disk full" ⟨0, 2, hiCtx, [], []⟩ ∧
    loopPass authAi anyTools hiCtx false (initSt hiCtx) =
      .fin authFinal ⟨0, 1, hiCtx, [], []⟩ :=
  ⟨(C5_thm net2Ai anyTools hiCtx false).2.1 "network down" "disk full"
     rfl (by decide) rfl (by decide),
   (C5_thm authAi anyTools hiCtx false).2.2.2.1 "authentication required"
     rfl (by decide)⟩

/-- C5 counterexample: when both the primary and the fallback call fail
with non-login errors the whole attempt ends in the propagated error, not
a terminal degraded-answer state — `callAIAgent` returns the error outcome
carrying "disk full" — while the auth-classified case terminates with the
apology. -/
theorem C5_cex :
    callAIAgent net2Ai anyTools hiCtx false 6 =
      .err "disk full" ⟨0, 2, hiCtx, [], []⟩ ∧
    callAIAgent authAi anyTools hiCtx false 6 =
      .done authFinal ⟨0, 1, hiCtx, [], []⟩ := ⟨rfl, rfl⟩

/-- C6 (amended): the sanitizer reverts to the TRIMMED original (the
source applies `.trim()` before the pipeline and falls back to
`text.trim()`) whenever the cleaned result is shorter than 10 characters;
consequently an output below the threshold occurs exactly when the trimmed
original is itself below it.  The claim's two sentences fail on inputs
with trailing whitespace: `C6_cex` gives an input of length 10 whose
output is neither the original nor of length at least 10. -/
theorem C6_thm (hf : Bool) (t : String) :
    ((cleanPipeline hf t).length < 10 → sanitizeResponse hf t = jsTrim t) ∧
    ((sanitizeResponse hf t).length < 10 → (jsTrim t).length < 10) := by
  constructor
  · intro h
    unfold sanitizeResponse
    simp [h]
  · intro h
    unfold sanitizeResponse at h
    by_cases hc : (cleanPipeline hf t).length < 10
    · simpa [hc] using h
    · simp [hc] at h

/-- C6 witness: on "Hi." followed by seven spaces the cleaned result is
short, so the sanitizer returns the trimmed original. -/
theorem C6_wit :
    (cleanPipeline false "Hi.       ").length < 10 ∧
    sanitizeResponse false "Hi.       " = jsTrim "Hi.       " :=
  ⟨by decide, (C6_thm false "Hi.       ").1 (by decide)⟩

/-- C6 counterexample: the input "Hi." plus seven trailing spaces has
length 10, yet the sanitizer's output is "Hi." — not equal to the original
input, and of length 3 < 10 although the original was not below the
threshold. -/
theorem C6_cex :
    sanitizeResponse false "Hi.       " = "Hi." ∧
    "Hi." ≠ "Hi.       " ∧
    10 ≤ ("Hi.       " : String).length ∧
    ("Hi." : String).length < 10 :=
  ⟨rfl, by decide, by decide, by decide⟩

/-- C7 (amended): the executor produces one result per call whatever the
tools do; a thrown tool error is caught per-call into a result with
success false whose confidence tag is "low"; and a non-thrown result
object is tagged "high" only when it has no truthy `error` field and no
explicit success-false marker.  The claim's "otherwise high" is refuted by
`C7_cex`: a tool that RETURNS an error object (as `calculate` does on bad
input) without a `success` field gets no confidence tag at all. -/
theorem C7_thm (tools : ToolCall → ExecOut) (calls : List ToolCall) :
    ((execCalls tools calls).results.length = calls.length) ∧
    (∀ c m, tools c = .threw m →
       (execCalls tools [c]).results = [⟨c.name, threwResult c.name m⟩] ∧
       jsGet (threwResult c.name m) "success" = .jbool false ∧
       jsGet (tagConfidence (threwResult c.name m)) "confidence" = .str "low") ∧
    (∀ fs : List (String × JVal),
       truthy (jsGet (.obj fs) "error") = false →
       successIsFalse (.obj fs) = false →
       jsGet (tagConfidence (.obj fs)) "confidence" = .str "high") := by
  refine ⟨?_, ?_, ?_⟩
  · have := execFold_len tools calls ⟨[], [], []⟩
    simpa [execCalls] using this
  · intro c m h
    refine ⟨?_, rfl, ?_⟩
    · unfold execCalls
      rw [List.foldl_cons, List.foldl_nil]
      unfold execStep
      rw [h]
      rfl
    · rfl
  · intro fs herr hsf
    have h1 : (truthy (JVal.obj fs) && successIsFalse (JVal.obj fs)) = false := by
      rw [hsf]
      simp
    have h2 : (truthy (JVal.obj fs) && !truthy (jsGet (JVal.obj fs) "error")) = true := by
      rw [herr]
      rfl
    unfold tagConfidence
    rw [h1, h2]
    simp only [if_false, if_true, Bool.false_eq_true]
    exact jsGetL_set_same fs "confidence" (.str "high")

/-- C7 witness: a throwing executor yields the caught failure result with
success false tagged "low", and a clean result object is tagged "high". -/
theorem C7_wit :
    ((execCalls thrTools [cwCall]).results =
       [⟨cwCall.name, threwResult cwCall.name "boom"⟩] ∧
     jsGet (threwResult cwCall.name "boom") "success" = .jbool false ∧
     jsGet (tagConfidence (threwResult cwCall.name "boom")) "confidence" =
       .str "low") ∧
    jsGet (tagConfidence (.obj [("ok", .jbool true)])) "confidence" =
      .str "high" :=
  ⟨(C7_thm thrTools [cwCall]).2.1 cwCall "boom" rfl,
   (C7_thm thrTools [cwCall]).2.2 [("ok", .jbool true)] rfl rfl⟩

/-- C7 counterexample: the result object `calculate` returns on a bad
expression — an `error` field but no `success` field — passes through the
confidence tagger unchanged: it carries no confidence field, so this
non-throwing execution does not yield a "high"-tagged result. -/
theorem C7_cex :
    tagConfidence errOnlyResult = errOnlyResult ∧
    jsGet (tagConfidence errOnlyResult) "confidence" = .undef ∧
    (∀ s : String, jsGet (tagConfidence errOnlyResult) "confidence" ≠ .str s) ∧
    (execCalls (fun _ => .ok errOnlyResult) [⟨.str "calculate", .obj []⟩]).results =
      [⟨.str "calculate", errOnlyResult⟩] := by
  refine ⟨rfl, rfl, ?_, rfl⟩
  intro s h
  exact JVal.noConfusion h

end CfAgent

namespace CfAgent

/-- C8 (amended): when an iteration detects a non-empty call list, the
next iteration's message sequence is exactly the previous sequence
followed by one assistant turn carrying the detected calls, the tool-role
results (one per call), and ONE EXTRA synthetic user instruction; the
prefix is preserved unchanged and the iteration index advances by one.
The claim's "one assistant message and one or more tool-role messages"
suffix shape is refuted by `C8_cex`: the appended block always ends in a
user-role message, so no assistant-plus-all-tool suffix decomposition
exists. -/
theorem C8_thm (ai : Nat → AIOut) (tools : ToolCall → ExecOut)
    (ctxMsgs : List Msg) (reqCur : Bool) (st : LoopSt) (resp : JVal)
    (calls : List ToolCall)
    (h1 : ai st.callCount = .ok resp)
    (h2 : detectAgentFunctionCalls (respTextOf resp) resp ctxMsgs reqCur =
      .ok (some calls))
    (h3 : calls ≠ []) :
    ∃ st2, loopPass ai tools ctxMsgs reqCur st = .cont st2 ∧
      st2.msgs = st.msgs ++
        ([⟨"assistant", "", none, some calls⟩] ++
         (execCalls tools calls).results.map toolMsgOf ++
         [⟨"user", answerInstruction, none, none⟩]) ∧
      ((execCalls tools calls).results.map toolMsgOf).length = calls.length ∧
      (∀ m ∈ (execCalls tools calls).results.map toolMsgOf, m.role = "tool") ∧
      st2.msgs.take st.msgs.length = st.msgs ∧
      st2.iteration = st.iteration + 1 := by
  have hlen : calls.length > 0 := List.length_pos.mpr h3
  unfold loopPass
  rw [h1]
  simp only [h2]
  simp only [Option.getD_some]
  rw [if_pos hlen]
  refine ⟨_, rfl, ?_, ?_, ?_, ?_, rfl⟩
  · unfold appendToolTurn
    simp [List.append_assoc]
  · rw [List.length_map]
    have := execFold_len tools calls ⟨[], [], []⟩
    simpa [execCalls] using this
  · intro m hm
    obtain ⟨fr, _, hfr⟩ := List.mem_map.mp hm
    rw [← hfr]
    rfl
  · unfold appendToolTurn
    rw [List.append_assoc, List.append_assoc]
    exact List.take_left _ _

/-- C8 witness: over the Tokyo context with an always-answering model, the
first pass detects the synthesized weather call and appends the assistant
turn, its tool result and the instruction, preserving the prefix. -/
theorem C8_wit :
    ∃ st2, loopPass okAiW okTools tokyoCtx false (initSt tokyoCtx) =
        .cont st2 ∧
      st2.msgs = (initSt tokyoCtx).msgs ++
        ([⟨"assistant", "", none, some [tokyoWeatherCall]⟩] ++
         (execCalls okTools [tokyoWeatherCall]).results.map toolMsgOf ++
         [⟨"user", answerInstruction, none, none⟩]) ∧
      ((execCalls okTools [tokyoWeatherCall]).results.map toolMsgOf).length =
        ([tokyoWeatherCall] : List ToolCall).length ∧
      (∀ m ∈ (execCalls okTools [tokyoWeatherCall]).results.map toolMsgOf,
        m.role = "tool") ∧
      st2.msgs.take (initSt tokyoCtx).msgs.length = (initSt tokyoCtx).msgs ∧
      st2.iteration = (initSt tokyoCtx).iteration + 1 :=
  C8_thm okAiW okTools tokyoCtx false (initSt tokyoCtx) (.obj [])
    [tokyoWeatherCall] rfl rfl (by simp)

/-- C8 counterexample: one tool iteration appends assistant, two tool
messages AND a trailing user-role instruction, so the new sequence admits
no decomposition as the old sequence plus an assistant turn followed only
by tool-role messages. -/
theorem C8_cex :
    ∃ st2, loopPass timeCallAi timeTools hiCtx false (initSt hiCtx) =
        .cont st2 ∧
      st2.msgs = hiCtx ++ c8Suffix ∧
      ¬ (∃ (a : Msg) (ts : List Msg), st2.msgs = hiCtx ++ (a :: ts) ∧
           a.role = "assistant" ∧ ts ≠ [] ∧ ∀ m ∈ ts, m.role = "tool") := by
  refine ⟨_, rfl, rfl, ?_⟩
  rintro ⟨a, ts, heq, hrole, hne, hall⟩
  have hcan : a :: ts = c8Suffix := by
    apply List.append_cancel_left
    exact heq.symm.trans (by rfl)
  rw [show c8Suffix = [c8Asst, c8ToolMsg, c8ToolMsg, c8Instr] from rfl] at hcan
  injection hcan with ha hts
  subst hts
  exact absurd (hall c8Instr (by simp)) (by decide)

/-- C9 (confirmed): the detector is a pure function of the response text,
the raw response, the context and the currency flag — two runs on equal
detector states return equal results, hence rerunning it on the same raw
response is idempotent. -/
theorem C9_thm (t1 t2 : String) (r1 r2 : JVal) (c1 c2 : List Msg)
    (q1 q2 : Bool) (ht : t1 = t2) (hr : r1 = r2) (hc : c1 = c2)
    (hq : q1 = q2) :
    detectAgentFunctionCalls t1 r1 c1 q1 =
      detectAgentFunctionCalls t2 r2 c2 q2 := by
  rw [ht, hr, hc, hq]

/-- C9 witness: two runs on the Tokyo state agree. -/
theorem C9_wit :
    detectAgentFunctionCalls tokyoText (.obj []) tokyoCtx false =
      detectAgentFunctionCalls tokyoText (.obj []) tokyoCtx false :=
  C9_thm tokyoText tokyoText (.obj []) (.obj []) tokyoCtx tokyoCtx false false
    rfl rfl rfl rfl

/-- C10 (amended): validation accepts exactly the NON-EMPTY strings of
length at most 2000 (in particular a message of exactly 2000 characters),
and on acceptance the step leaves the input unchanged and only records the
validation artifact.  The claim's failure condition misses the empty
string, which the source's falsiness test rejects: see `C10_cex`. -/
theorem C10_thm :
    (∀ m : MsgField, (∃ v, validateInput m = .ok v) ↔
       ∃ s, m = .str s ∧ s ≠ "" ∧ s.length ≤ 2000) ∧
    (∀ st v, validateInputStep st = .ok v →
       v.input = st.input ∧
       ∃ s, st.input.message = .str s ∧
         v.validation = some ⟨true, s.length⟩) := by
  have key : ∀ (m : MsgField) (w : ValidationRec), validateInput m = .ok w →
      ∃ s, m = .str s ∧ s ≠ "" ∧ s.length ≤ 2000 ∧ w = ⟨true, s.length⟩ := by
    intro m w hv
    cases m with
    | absent => simp [validateInput] at hv
    | notStr => simp [validateInput] at hv
    | str s =>
      unfold validateInput at hv
      by_cases h0 : s == ""
      · simp [h0] at hv
      · by_cases h1 : s.length > 2000
        · simp [h0, h1] at hv
        · simp [h0, h1] at hv
          refine ⟨s, rfl, by simpa using h0, by omega, hv.symm⟩
  constructor
  · intro m
    constructor
    · rintro ⟨v, hv⟩
      obtain ⟨s, hs, hne, hle, _⟩ := key m v hv
      exact ⟨s, hs, hne, hle⟩
    · rintro ⟨s, rfl, hne, hle⟩
      refine ⟨⟨true, s.length⟩, ?_⟩
      unfold validateInput
      have h0 : (s == "") = false := by simpa using hne
      have h1 : ¬ (s.length > 2000) := by omega
      simp [h0, h1]
  · intro st v hv
    unfold validateInputStep at hv
    cases hval : validateInput st.input.message with
    | error e => rw [hval] at hv; simp [Except.map] at hv
    | ok w =>
      rw [hval] at hv
      simp [Except.map] at hv
      obtain ⟨s, hs, _, _, hw⟩ := key _ _ hval
      subst hw
      rw [← hv]
      exact ⟨rfl, s, hs, rfl⟩

/-- C10 witness: the 2000-character message is accepted, and on a concrete
accepted state the step only adds the artifact. -/
theorem C10_wit :
    (∃ v, validateInput (.str msg2000) = .ok v) ∧
    ((⟨⟨.str "hello", "s1"⟩, some ⟨true, 5⟩⟩ : WfState).input =
       (⟨⟨.str "hello", "s1"⟩, none⟩ : WfState).input ∧
     ∃ s, (⟨⟨.str "hello", "s1"⟩, none⟩ : WfState).input.message = .str s ∧
       (⟨⟨.str "hello", "s1"⟩, some ⟨true, 5⟩⟩ : WfState).validation =
         some ⟨true, s.length⟩) := by
  have hl : msg2000.length = 2000 := by
    show (String.mk (List.replicate 2000 'a')).length = 2000
    rw [String.length]
    exact List.length_replicate 2000 'a'
  exact ⟨(C10_thm.1 (.str msg2000)).mpr ⟨msg2000, rfl, by decide, by omega⟩,
    C10_thm.2 ⟨⟨.str "hello", "s1"⟩, none⟩ _ rfl⟩

/-- C10 counterexample: the empty string is neither absent, nor
non-string, nor longer than 2000 — the claim's acceptance predicate takes
it — yet validation rejects it with the invalid-message error. -/
theorem C10_cex :
    claimTenAccepts (.str "") = true ∧
    validateInput (.str "") = .error invalidMsgErr :=
  ⟨rfl, rfl⟩

end CfAgent
